import Mathlib

/-!
A shallow embedding of the loot generation and deduplication pipeline of the
ai-loot repository (`src/loot-generator.ts`, `src/types.ts`, `src/database.ts`),
together with proofs settling the frozen claims about it.

Modelling conventions:
* JavaScript numbers are modelled as exact rationals (`ℚ`); `Math.round` is
  Mathlib's `round` (half away from zero upwards, `⌊x + 1/2⌋`, which agrees
  with `Math.round` on exact inputs) and `Math.floor` is `Int.floor`.
* `Math.random()` draws are passed in explicitly: each generation attempt
  carries a `RandSource` holding the subtype pick, the stream of draws
  consumed by `randomInRange` (indexed in the order the source calls it),
  and the rarity draw.
* The external text-generation service together with `JSON.parse` is an
  oracle `ℕ → Option GeneratedItem`: `none` models a service error, a
  JSON parse error, or content whose shape cannot be represented; `some g`
  is the parsed intermediate record.  Fields the code tolerates being
  absent are `Option`s.
* `LootItemSchema.parse` both checks and REWRITES: zod's `z.union` returns
  the output of the first member whose parse succeeds, and zod objects
  strip undeclared keys.  The rewrite of the stats block is `parseStats`;
  the residual accept/reject content on the already-typed record is
  `lootItemValid`.
* `generatePrompt` runs before the service call and throws a `TypeError`
  (via `getRandomSubType(undefined)`) when the request has no item type and
  a falsy subtype; `attempt` models this with `promptThrows`, failing the
  iteration before the oracle is consulted.
* The SHA-256 digest of the canonical `JSON.stringify` serialization is
  modelled by the canonical content record itself (`HashContent`):
  `JSON.stringify` is injective on this fixed-shape record and the digest
  is treated as collision-free.
* `Array.prototype.sort` with the `localeCompare` comparator is a stable
  sort by name; any stable sort by the same key computes the same list, so
  it is modelled by `List.insertionSort` (stable) over `String`'s order.
* The SQLite store is a list of rows plus the autoincrement counter; the
  insertion timestamp is passed explicitly.
-/

namespace AiLoot

/-- `LootTier` from `src/types.ts`. -/
inductive LootTier where
  | bronze | silver | gold | platinum | legendary | celestial
deriving DecidableEq, Repr

/-- `ItemType` from `src/types.ts`. -/
inductive ItemType where
  | weapon | armor | accessory | consumable | material | rune | artifact
deriving DecidableEq, Repr

/-- The string value of each `ItemType` enum member. -/
def ItemType.str : ItemType → String
  | .weapon => "Weapon"
  | .armor => "Armor"
  | .accessory => "Accessory"
  | .consumable => "Consumable"
  | .material => "Material"
  | .rune => "Rune"
  | .artifact => "Artifact"

/-- `z.nativeEnum(ItemType).parse`: which strings are `ItemType` values. -/
def parseItemType (s : String) : Option ItemType :=
  if s = "Weapon" then some .weapon
  else if s = "Armor" then some .armor
  else if s = "Accessory" then some .accessory
  else if s = "Consumable" then some .consumable
  else if s = "Material" then some .material
  else if s = "Rune" then some .rune
  else if s = "Artifact" then some .artifact
  else none

/-- A `{min, max}` numeric range as used by the stat range tables. -/
structure StatRange where
  min : ℚ
  max : ℚ
deriving DecidableEq, Repr

/-- The weapon stat range table row: one `StatRange` per stat name. -/
structure WeaponRanges where
  damage : StatRange
  attackSpeed : StatRange
  criticalChance : StatRange
  criticalDamage : StatRange
  range : StatRange
  accuracy : StatRange
  durability : StatRange
  weight : StatRange
  value : StatRange
deriving DecidableEq, Repr

/-- `LootGenerator.getWeaponStatRanges`. -/
def getWeaponStatRanges : LootTier → WeaponRanges
  | .bronze =>
    { damage := ⟨8, 15⟩, attackSpeed := ⟨-10, 10⟩, criticalChance := ⟨2, 6⟩,
      criticalDamage := ⟨150, 180⟩, range := ⟨1, 3⟩, accuracy := ⟨-5, 5⟩,
      durability := ⟨50, 100⟩, weight := ⟨1.0, 4.0⟩, value := ⟨50, 150⟩ }
  | .silver =>
    { damage := ⟨12, 22⟩, attackSpeed := ⟨-5, 20⟩, criticalChance := ⟨4, 10⟩,
      criticalDamage := ⟨160, 200⟩, range := ⟨1, 4⟩, accuracy := ⟨-3, 8⟩,
      durability := ⟨80, 140⟩, weight := ⟨0.8, 4.5⟩, value := ⟨100, 300⟩ }
  | .gold =>
    { damage := ⟨18, 35⟩, attackSpeed := ⟨0, 30⟩, criticalChance := ⟨6, 15⟩,
      criticalDamage := ⟨180, 230⟩, range := ⟨1, 5⟩, accuracy := ⟨0, 12⟩,
      durability := ⟨120, 200⟩, weight := ⟨0.6, 5.0⟩, value := ⟨200, 600⟩ }
  | .platinum =>
    { damage := ⟨30, 55⟩, attackSpeed := ⟨5, 45⟩, criticalChance := ⟨10, 22⟩,
      criticalDamage := ⟨200, 280⟩, range := ⟨2, 7⟩, accuracy := ⟨5, 18⟩,
      durability := ⟨180, 280⟩, weight := ⟨0.4, 6.0⟩, value := ⟨400, 1200⟩ }
  | .legendary =>
    { damage := ⟨45, 85⟩, attackSpeed := ⟨15, 65⟩, criticalChance := ⟨18, 35⟩,
      criticalDamage := ⟨250, 350⟩, range := ⟨3, 10⟩, accuracy := ⟨10, 25⟩,
      durability := ⟨250, 400⟩, weight := ⟨0.3, 7.0⟩, value := ⟨800, 2500⟩ }
  | .celestial =>
    { damage := ⟨75, 150⟩, attackSpeed := ⟨30, 100⟩, criticalChance := ⟨25, 50⟩,
      criticalDamage := ⟨300, 500⟩, range := ⟨5, 15⟩, accuracy := ⟨20, 40⟩,
      durability := ⟨350, 600⟩, weight := ⟨0.2, 8.0⟩, value := ⟨1500, 5000⟩ }

/-- The armor stat range table row. -/
structure ArmorRanges where
  defense : StatRange
  magicResistance : StatRange
  elementalResistance : StatRange
  durability : StatRange
  weight : StatRange
  value : StatRange
deriving DecidableEq, Repr

/-- `LootGenerator.getArmorStatRanges`. -/
def getArmorStatRanges : LootTier → ArmorRanges
  | .bronze =>
    { defense := ⟨3, 8⟩, magicResistance := ⟨2, 8⟩, elementalResistance := ⟨1, 5⟩,
      durability := ⟨60, 120⟩, weight := ⟨2.0, 15.0⟩, value := ⟨40, 120⟩ }
  | .silver =>
    { defense := ⟨6, 15⟩, magicResistance := ⟨5, 12⟩, elementalResistance := ⟨3, 8⟩,
      durability := ⟨100, 180⟩, weight := ⟨1.8, 16.0⟩, value := ⟨80, 250⟩ }
  | .gold =>
    { defense := ⟨12, 25⟩, magicResistance := ⟨8, 18⟩, elementalResistance := ⟨5, 12⟩,
      durability := ⟨150, 250⟩, weight := ⟨1.5, 18.0⟩, value := ⟨150, 500⟩ }
  | .platinum =>
    { defense := ⟨20, 40⟩, magicResistance := ⟨15, 28⟩, elementalResistance := ⟨8, 18⟩,
      durability := ⟨220, 350⟩, weight := ⟨1.2, 20.0⟩, value := ⟨300, 1000⟩ }
  | .legendary =>
    { defense := ⟨35, 65⟩, magicResistance := ⟨25, 45⟩, elementalResistance := ⟨15, 30⟩,
      durability := ⟨300, 500⟩, weight := ⟨1.0, 25.0⟩, value := ⟨600, 2000⟩ }
  | .celestial =>
    { defense := ⟨55, 120⟩, magicResistance := ⟨40, 80⟩, elementalResistance := ⟨25, 50⟩,
      durability := ⟨450, 800⟩, weight := ⟨0.8, 30.0⟩, value := ⟨1200, 4000⟩ }

/-- The accessory stat range table row. -/
structure AccessoryRanges where
  health : StatRange
  mana : StatRange
  stamina : StatRange
  attributes : StatRange
  luck : StatRange
  durability : StatRange
  weight : StatRange
  value : StatRange
deriving DecidableEq, Repr

/-- `LootGenerator.getAccessoryStatRanges`. -/
def getAccessoryStatRanges : LootTier → AccessoryRanges
  | .bronze =>
    { health := ⟨10, 30⟩, mana := ⟨8, 25⟩, stamina := ⟨5, 15⟩, attributes := ⟨1, 2⟩,
      luck := ⟨1, 3⟩, durability := ⟨30, 80⟩, weight := ⟨0.1, 1.0⟩, value := ⟨80, 200⟩ }
  | .silver =>
    { health := ⟨25, 50⟩, mana := ⟨20, 40⟩, stamina := ⟨12, 25⟩, attributes := ⟨1, 3⟩,
      luck := ⟨2, 5⟩, durability := ⟨60, 120⟩, weight := ⟨0.1, 1.2⟩, value := ⟨150, 400⟩ }
  | .gold =>
    { health := ⟨40, 80⟩, mana := ⟨35, 65⟩, stamina := ⟨20, 40⟩, attributes := ⟨2, 4⟩,
      luck := ⟨3, 7⟩, durability := ⟨100, 180⟩, weight := ⟨0.1, 1.5⟩, value := ⟨300, 800⟩ }
  | .platinum =>
    { health := ⟨70, 130⟩, mana := ⟨60, 100⟩, stamina := ⟨35, 65⟩, attributes := ⟨3, 6⟩,
      luck := ⟨5, 10⟩, durability := ⟨150, 250⟩, weight := ⟨0.1, 2.0⟩, value := ⟨600, 1500⟩ }
  | .legendary =>
    { health := ⟨120, 220⟩, mana := ⟨100, 180⟩, stamina := ⟨60, 110⟩, attributes := ⟨5, 10⟩,
      luck := ⟨8, 15⟩, durability := ⟨220, 350⟩, weight := ⟨0.1, 2.5⟩, value := ⟨1200, 3000⟩ }
  | .celestial =>
    { health := ⟨200, 400⟩, mana := ⟨180, 350⟩, stamina := ⟨100, 200⟩, attributes := ⟨8, 20⟩,
      luck := ⟨12, 25⟩, durability := ⟨300, 500⟩, weight := ⟨0.1, 3.0⟩, value := ⟨2500, 6000⟩ }

/-- The consumable stat range table row. -/
structure ConsumableRanges where
  healingPower : StatRange
  manaPower : StatRange
  duration : StatRange
  stackSize : StatRange
  value : StatRange
deriving DecidableEq, Repr

/-- `LootGenerator.getConsumableStatRanges`. -/
def getConsumableStatRanges : LootTier → ConsumableRanges
  | .bronze =>
    { healingPower := ⟨25, 60⟩, manaPower := ⟨15, 40⟩, duration := ⟨30, 120⟩,
      stackSize := ⟨10, 50⟩, value := ⟨5, 25⟩ }
  | .silver =>
    { healingPower := ⟨50, 100⟩, manaPower := ⟨35, 75⟩, duration := ⟨60, 180⟩,
      stackSize := ⟨15, 75⟩, value := ⟨15, 50⟩ }
  | .gold =>
    { healingPower := ⟨85, 160⟩, manaPower := ⟨65, 120⟩, duration := ⟨120, 300⟩,
      stackSize := ⟨20, 99⟩, value := ⟨30, 100⟩ }
  | .platinum =>
    { healingPower := ⟨140, 250⟩, manaPower := ⟨110, 200⟩, duration := ⟨180, 450⟩,
      stackSize := ⟨25, 99⟩, value := ⟨60, 200⟩ }
  | .legendary =>
    { healingPower := ⟨220, 400⟩, manaPower := ⟨180, 350⟩, duration := ⟨300, 600⟩,
      stackSize := ⟨30, 99⟩, value := ⟨120, 400⟩ }
  | .celestial =>
    { healingPower := ⟨350, 750⟩, manaPower := ⟨300, 600⟩, duration := ⟨450, 900⟩,
      stackSize := ⟨50, 99⟩, value := ⟨250, 800⟩ }

/-- The material stat range table row. -/
structure MaterialRanges where
  purity : StatRange
  stackSize : StatRange
  craftingBonus : StatRange
  value : StatRange
deriving DecidableEq, Repr

/-- `LootGenerator.getMaterialStatRanges`. -/
def getMaterialStatRanges : LootTier → MaterialRanges
  | .bronze =>
    { purity := ⟨60, 75⟩, stackSize := ⟨50, 200⟩, craftingBonus := ⟨2, 8⟩, value := ⟨2, 10⟩ }
  | .silver =>
    { purity := ⟨70, 82⟩, stackSize := ⟨100, 300⟩, craftingBonus := ⟨5, 12⟩, value := ⟨5, 20⟩ }
  | .gold =>
    { purity := ⟨78, 88⟩, stackSize := ⟨150, 500⟩, craftingBonus := ⟨8, 18⟩, value := ⟨10, 40⟩ }
  | .platinum =>
    { purity := ⟨85, 93⟩, stackSize := ⟨200, 750⟩, craftingBonus := ⟨12, 25⟩, value := ⟨20, 80⟩ }
  | .legendary =>
    { purity := ⟨90, 97⟩, stackSize := ⟨300, 999⟩, craftingBonus := ⟨20, 35⟩, value := ⟨40, 150⟩ }
  | .celestial =>
    { purity := ⟨95, 99⟩, stackSize := ⟨500, 999⟩, craftingBonus := ⟨30, 50⟩, value := ⟨80, 300⟩ }

/-- The `{min, max}` rarity band of a tier (integer percentages). -/
structure RarityRange where
  min : ℤ
  max : ℤ
deriving DecidableEq, Repr

/-- `LootGenerator.getRarityRange`. -/
def getRarityRange : LootTier → RarityRange
  | .bronze => ⟨5, 25⟩
  | .silver => ⟨20, 40⟩
  | .gold => ⟨35, 60⟩
  | .platinum => ⟨55, 75⟩
  | .legendary => ⟨70, 90⟩
  | .celestial => ⟨85, 100⟩

/-- `LootGenerator.randomInRange`: a draw `u` (the `Math.random()` value)
mapped into the range and rounded to two decimal places. -/
def randomInRange (u : ℚ) (r : StatRange) : ℚ :=
  ((round ((u * (r.max - r.min) + r.min) * 100) : ℤ) : ℚ) / 100

/-- `Math.round`, landing back in `ℚ`. -/
def jsRound (q : ℚ) : ℚ := ((round q : ℤ) : ℚ)

/-- The structured weapon stat block (`WeaponStatsSchema` shape as produced by
`transformToStructuredStats`; every field is populated because the baseline
defines all nine keys). -/
structure WeaponStats where
  damage : ℚ
  attackSpeed : ℚ
  criticalChance : ℚ
  criticalDamage : ℚ
  range : ℚ
  accuracy : ℚ
  durability : ℚ
  weight : ℚ
  value : ℚ
deriving DecidableEq, Repr

/-- The nested elemental-resistance block of armor stats.  `dark` and `light`
are absent unless the model supplies `darkResistance`/`lightResistance`,
because the baseline never defines them. -/
structure ElementalResistance where
  fire : ℚ
  ice : ℚ
  lightning : ℚ
  poison : ℚ
  dark : Option ℚ
  light : Option ℚ
deriving DecidableEq, Repr

/-- The structured armor stat block. -/
structure ArmorStats where
  defense : ℚ
  magicResistance : ℚ
  elementalResistance : ElementalResistance
  durability : ℚ
  weight : ℚ
  value : ℚ
deriving DecidableEq, Repr

/-- The structured accessory stat block. -/
structure AccessoryStats where
  health : ℚ
  mana : ℚ
  stamina : ℚ
  strength : ℚ
  dexterity : ℚ
  intelligence : ℚ
  wisdom : ℚ
  constitution : ℚ
  luck : ℚ
  durability : ℚ
  weight : ℚ
  value : ℚ
deriving DecidableEq, Repr

/-- The structured consumable stat block.  The consumable baseline defines no
`durability`/`weight`, so those fields exist only when the model supplies
them. -/
structure ConsumableStats where
  healingPower : ℚ
  manaPower : ℚ
  duration : ℚ
  stackSize : ℚ
  durability : Option ℚ
  weight : Option ℚ
  value : ℚ
deriving DecidableEq, Repr

/-- The structured material stat block. -/
structure MaterialStats where
  purity : ℚ
  stackSize : ℚ
  craftingBonus : ℚ
  durability : Option ℚ
  weight : Option ℚ
  value : ℚ
deriving DecidableEq, Repr

/-- A stat block of one of the supported shapes; `flat` is the untransformed
merged record returned by the `default` branch (Rune/Artifact or an
unrecognized type string). -/
inductive ItemStats where
  | weapon : WeaponStats → ItemStats
  | armor : ArmorStats → ItemStats
  | accessory : AccessoryStats → ItemStats
  | consumable : ConsumableStats → ItemStats
  | material : MaterialStats → ItemStats
  | flat : List (String × ℚ) → ItemStats
deriving DecidableEq, Repr

/-- The flat armor baseline record produced by `generateStatsForType`
(elemental resistances are flat keys there, nesting happens later). -/
structure ArmorBaseline where
  defense : ℚ
  magicResistance : ℚ
  fireResistance : ℚ
  iceResistance : ℚ
  lightningResistance : ℚ
  poisonResistance : ℚ
  durability : ℚ
  weight : ℚ
  value : ℚ
deriving DecidableEq, Repr

/-- The flat consumable baseline record. -/
structure ConsumableBaseline where
  healingPower : ℚ
  manaPower : ℚ
  duration : ℚ
  stackSize : ℚ
  value : ℚ
deriving DecidableEq, Repr

/-- The flat material baseline record. -/
structure MaterialBaseline where
  purity : ℚ
  stackSize : ℚ
  craftingBonus : ℚ
  value : ℚ
deriving DecidableEq, Repr

/-- Weapon branch of `generateStatsForType`: one `Math.random()` draw per
stat, in source order; every stat is rounded to the nearest integer except
`range` and `weight`, which stay at the two decimals `randomInRange`
produces. -/
def weaponBaseline (tier : LootTier) (u : ℕ → ℚ) : WeaponStats :=
  let r := getWeaponStatRanges tier
  { damage := jsRound (randomInRange (u 0) r.damage)
    attackSpeed := jsRound (randomInRange (u 1) r.attackSpeed)
    criticalChance := jsRound (randomInRange (u 2) r.criticalChance)
    criticalDamage := jsRound (randomInRange (u 3) r.criticalDamage)
    range := randomInRange (u 4) r.range
    accuracy := jsRound (randomInRange (u 5) r.accuracy)
    durability := jsRound (randomInRange (u 6) r.durability)
    weight := randomInRange (u 7) r.weight
    value := jsRound (randomInRange (u 8) r.value) }

/-- Armor branch of `generateStatsForType`: the four elemental resistances
are independent draws from the shared `elementalResistance` range. -/
def armorBaseline (tier : LootTier) (u : ℕ → ℚ) : ArmorBaseline :=
  let r := getArmorStatRanges tier
  { defense := jsRound (randomInRange (u 0) r.defense)
    magicResistance := jsRound (randomInRange (u 1) r.magicResistance)
    fireResistance := jsRound (randomInRange (u 2) r.elementalResistance)
    iceResistance := jsRound (randomInRange (u 3) r.elementalResistance)
    lightningResistance := jsRound (randomInRange (u 4) r.elementalResistance)
    poisonResistance := jsRound (randomInRange (u 5) r.elementalResistance)
    durability := jsRound (randomInRange (u 6) r.durability)
    weight := randomInRange (u 7) r.weight
    value := jsRound (randomInRange (u 8) r.value) }

/-- Accessory branch of `generateStatsForType`; the five attribute stats are
independent draws from the shared `attributes` range. -/
def accessoryBaseline (tier : LootTier) (u : ℕ → ℚ) : AccessoryStats :=
  let r := getAccessoryStatRanges tier
  { health := jsRound (randomInRange (u 0) r.health)
    mana := jsRound (randomInRange (u 1) r.mana)
    stamina := jsRound (randomInRange (u 2) r.stamina)
    strength := jsRound (randomInRange (u 3) r.attributes)
    dexterity := jsRound (randomInRange (u 4) r.attributes)
    intelligence := jsRound (randomInRange (u 5) r.attributes)
    wisdom := jsRound (randomInRange (u 6) r.attributes)
    constitution := jsRound (randomInRange (u 7) r.attributes)
    luck := jsRound (randomInRange (u 8) r.luck)
    durability := jsRound (randomInRange (u 9) r.durability)
    weight := randomInRange (u 10) r.weight
    value := jsRound (randomInRange (u 11) r.value) }

/-- Consumable branch of `generateStatsForType`. -/
def consumableBaseline (tier : LootTier) (u : ℕ → ℚ) : ConsumableBaseline :=
  let r := getConsumableStatRanges tier
  { healingPower := jsRound (randomInRange (u 0) r.healingPower)
    manaPower := jsRound (randomInRange (u 1) r.manaPower)
    duration := jsRound (randomInRange (u 2) r.duration)
    stackSize := jsRound (randomInRange (u 3) r.stackSize)
    value := jsRound (randomInRange (u 4) r.value) }

/-- Material branch of `generateStatsForType`. -/
def materialBaseline (tier : LootTier) (u : ℕ → ℚ) : MaterialBaseline :=
  let r := getMaterialStatRanges tier
  { purity := jsRound (randomInRange (u 0) r.purity)
    stackSize := jsRound (randomInRange (u 1) r.stackSize)
    craftingBonus := jsRound (randomInRange (u 2) r.craftingBonus)
    value := jsRound (randomInRange (u 3) r.value) }

/-- Default branch of `generateStatsForType` (Rune, Artifact, or an
unrecognized type string): a flat record with fixed ranges. -/
def defaultBaseline (u : ℕ → ℚ) : List (String × ℚ) :=
  [("durability", jsRound (randomInRange (u 0) ⟨50, 200⟩)),
   ("weight", randomInRange (u 1) ⟨0.5, 5.0⟩),
   ("value", jsRound (randomInRange (u 2) ⟨50, 500⟩))]

/-- Key lookup in a parsed flat JSON stat object (keys assumed unique, as in
a JSON object). -/
def lookupStat : List (String × ℚ) → String → Option ℚ
  | [], _ => none
  | p :: ps, k => if p.1 = k then some p.2 else lookupStat ps k

/-- One field of `mergedStats = { ...baselineStats, ...aiStats }`: the
model's value when the key is present (zero included), else the baseline. -/
def pick (ai : List (String × ℚ)) (k : String) (base : ℚ) : ℚ :=
  (lookupStat ai k).getD base

/-- A required field read as `mergedStats.k || baselineStats.k`: JavaScript's
`||` treats a merged value of `0` as falsy and falls back to the baseline. -/
def pickReq (ai : List (String × ℚ)) (k : String) (base : ℚ) : ℚ :=
  let v := pick ai k base
  if v = 0 then base else v

/-- The object spread `{ ...base, ...ai }` on flat records: base keys first
(values overridden by `ai` where present), then `ai`'s new keys. -/
def jsMerge (base ai : List (String × ℚ)) : List (String × ℚ) :=
  base.map (fun p => (p.1, (lookupStat ai p.1).getD p.2)) ++
    ai.filter (fun p => (lookupStat base p.1).isNone)

/-- Weapon branch of `transformToStructuredStats`. -/
def transformWeapon (ai : List (String × ℚ)) (tier : LootTier) (u : ℕ → ℚ) :
    WeaponStats :=
  let base := weaponBaseline tier u
  { damage := pickReq ai "damage" base.damage
    attackSpeed := pick ai "attackSpeed" base.attackSpeed
    criticalChance := pick ai "criticalChance" base.criticalChance
    criticalDamage := pick ai "criticalDamage" base.criticalDamage
    range := pick ai "range" base.range
    accuracy := pick ai "accuracy" base.accuracy
    durability := pick ai "durability" base.durability
    weight := pick ai "weight" base.weight
    value := pick ai "value" base.value }

/-- Armor branch of `transformToStructuredStats`: the flat resistances are
reshaped under `elementalResistance`; `dark`/`light` come only from the
model. -/
def transformArmor (ai : List (String × ℚ)) (tier : LootTier) (u : ℕ → ℚ) :
    ArmorStats :=
  let base := armorBaseline tier u
  { defense := pickReq ai "defense" base.defense
    magicResistance := pick ai "magicResistance" base.magicResistance
    elementalResistance :=
      { fire := pick ai "fireResistance" base.fireResistance
        ice := pick ai "iceResistance" base.iceResistance
        lightning := pick ai "lightningResistance" base.lightningResistance
        poison := pick ai "poisonResistance" base.poisonResistance
        dark := lookupStat ai "darkResistance"
        light := lookupStat ai "lightResistance" }
    durability := pick ai "durability" base.durability
    weight := pick ai "weight" base.weight
    value := pick ai "value" base.value }

/-- Accessory branch of `transformToStructuredStats`. -/
def transformAccessory (ai : List (String × ℚ)) (tier : LootTier) (u : ℕ → ℚ) :
    AccessoryStats :=
  let base := accessoryBaseline tier u
  { health := pick ai "health" base.health
    mana := pick ai "mana" base.mana
    stamina := pick ai "stamina" base.stamina
    strength := pick ai "strength" base.strength
    dexterity := pick ai "dexterity" base.dexterity
    intelligence := pick ai "intelligence" base.intelligence
    wisdom := pick ai "wisdom" base.wisdom
    constitution := pick ai "constitution" base.constitution
    luck := pick ai "luck" base.luck
    durability := pick ai "durability" base.durability
    weight := pick ai "weight" base.weight
    value := pick ai "value" base.value }

/-- Consumable branch of `transformToStructuredStats`: `durability`/`weight`
exist only if the model supplied them (the baseline has neither key). -/
def transformConsumable (ai : List (String × ℚ)) (tier : LootTier) (u : ℕ → ℚ) :
    ConsumableStats :=
  let base := consumableBaseline tier u
  { healingPower := pick ai "healingPower" base.healingPower
    manaPower := pick ai "manaPower" base.manaPower
    duration := pick ai "duration" base.duration
    stackSize := pick ai "stackSize" base.stackSize
    durability := lookupStat ai "durability"
    weight := lookupStat ai "weight"
    value := pick ai "value" base.value }

/-- Material branch of `transformToStructuredStats`. -/
def transformMaterial (ai : List (String × ℚ)) (tier : LootTier) (u : ℕ → ℚ) :
    MaterialStats :=
  let base := materialBaseline tier u
  { purity := pick ai "purity" base.purity
    stackSize := pick ai "stackSize" base.stackSize
    craftingBonus := pick ai "craftingBonus" base.craftingBonus
    durability := lookupStat ai "durability"
    weight := lookupStat ai "weight"
    value := pick ai "value" base.value }

/-- `LootGenerator.transformToStructuredStats`.  The dispatch argument is the
string `options.itemType || generatedItem.type` interpreted against the
`ItemType` cases of the `switch`; `none` stands for a string matching no case
(including Rune/Artifact, which the `switch` sends to `default`). -/
def transformToStructuredStats (ai : List (String × ℚ)) (switchType : Option ItemType)
    (tier : LootTier) (u : ℕ → ℚ) : ItemStats :=
  match switchType with
  | some .weapon => .weapon (transformWeapon ai tier u)
  | some .armor => .armor (transformArmor ai tier u)
  | some .accessory => .accessory (transformAccessory ai tier u)
  | some .consumable => .consumable (transformConsumable ai tier u)
  | some .material => .material (transformMaterial ai tier u)
  | _ => .flat (jsMerge (defaultBaseline u) ai)

/-- The declared keys of `WeaponStatsSchema` (`BaseStatsSchema.extend`), in
shape order: base keys first, then the extension's. -/
def weaponSchemaKeys : List String :=
  ["durability", "weight", "value", "damage", "attackSpeed", "criticalChance",
   "criticalDamage", "range", "accuracy"]

/-- The flat-valued declared keys of `ArmorStatsSchema`, in shape order
(`elementalResistance`, its only object-valued key, is handled separately). -/
def armorSchemaKeys : List String :=
  ["durability", "weight", "value", "defense", "magicResistance"]

/-- The declared keys of `AccessoryStatsSchema`, in shape order. -/
def accessorySchemaKeys : List String :=
  ["durability", "weight", "value", "health", "mana", "stamina", "strength",
   "dexterity", "intelligence", "wisdom", "constitution", "luck"]

/-- Strip-mode output of a zod object schema on a flat numeric record: the
declared keys that are present, in shape order, undeclared keys dropped. -/
def stripKeys (keys : List String) (fl : List (String × ℚ)) : List (String × ℚ) :=
  keys.filterMap (fun k => (lookupStat fl k).map (fun v => (k, v)))

/-- `ItemStatsSchema.parse`: zod's `z.union` returns the output of the FIRST
member whose parse succeeds, and zod objects strip undeclared keys.
* A weapon block (`damage` present, every key declared by
  `WeaponStatsSchema`) and an armor block (`defense` present, the nested
  resistances all declared) pass their own schema unchanged; an accessory
  block passes `AccessoryStatsSchema` (third member) unchanged.
* A consumable or material block has no `damage`/`defense`, so the first
  member to succeed is the all-optional `AccessoryStatsSchema` — which
  strips every type-specific key (`healingPower`, `manaPower`, `duration`,
  `stackSize`, `purity`, `craftingBonus`), keeping only
  `durability`/`weight`/`value`.
* A flat (Rune/Artifact/default) record matches `WeaponStatsSchema` iff it
  contains `damage`, else `ArmorStatsSchema` iff it contains `defense` and
  no (number-valued, hence non-object) `elementalResistance` key, else
  `AccessoryStatsSchema`; the winner's declared keys survive in shape
  order. -/
def parseStats : ItemStats → ItemStats
  | .weapon ws => .weapon ws
  | .armor ar => .armor ar
  | .accessory acc => .accessory acc
  | .consumable cs =>
    .flat ((cs.durability.toList.map (fun v => ("durability", v))) ++
           (cs.weight.toList.map (fun v => ("weight", v))) ++
           [("value", cs.value)])
  | .material ms =>
    .flat ((ms.durability.toList.map (fun v => ("durability", v))) ++
           (ms.weight.toList.map (fun v => ("weight", v))) ++
           [("value", ms.value)])
  | .flat fl =>
    if (lookupStat fl "damage").isSome then
      .flat (stripKeys weaponSchemaKeys fl)
    else if (lookupStat fl "defense").isSome &&
        (lookupStat fl "elementalResistance").isNone then
      .flat (stripKeys armorSchemaKeys fl)
    else
      .flat (stripKeys accessorySchemaKeys fl)

/-- `MagicalPropertySchema`: `{name, description, magnitude?}`. -/
structure MagicalProperty where
  name : String
  description : String
  magnitude : Option ℚ
deriving DecidableEq, Repr

/-- The intermediate record obtained from `JSON.parse` of the model's reply.
Fields the pipeline tolerates being absent are `Option`s; `stats` is the flat
string-to-number object (absent modelled as the empty object, which the
spread treats identically). -/
structure GeneratedItem where
  name : Option String
  type : Option String
  subType : Option String
  tier : Option String
  description : Option String
  stats : List (String × ℚ)
  magicalProperties : Option (List MagicalProperty)
  lore : Option String
  setName : Option String
  rarity : Option ℚ
deriving DecidableEq, Repr

/-- `GenerationOptions` from `src/types.ts` (the `model` selector, which only
chooses the service model, is omitted: no modelled behaviour depends on it). -/
structure GenerationOptions where
  tier : LootTier
  count : ℕ
  itemType : Option ItemType
  subType : Option String
  setName : Option String
deriving DecidableEq, Repr

/-- A fully validated `LootItem` (the value produced by
`LootItemSchema.parse`).  `type`/`tier` are enum-typed because the schema's
`nativeEnum` checks succeeded; `subType` is any string (the schema's union
ends in `z.string()`); `rarity` is the `Math.floor` result. -/
structure LootItem where
  name : String
  type : ItemType
  subType : String
  tier : LootTier
  description : String
  stats : ItemStats
  magicalProperties : Option (List MagicalProperty)
  lore : Option String
  setName : Option String
  rarity : ℤ
deriving DecidableEq, Repr

/-- The `Math.random()` draws one generation attempt can consume: the
subtype pick (already scaled to a natural index), the stream used by
`randomInRange` inside `generateStatsForType`, and the rarity draw. -/
structure RandSource where
  sub : ℕ
  stat : ℕ → ℚ
  rar : ℚ

/-- JavaScript truthiness of a possibly-absent string: `undefined` and `""`
are falsy. -/
def strTruthy : Option String → Bool
  | some s => !(s == "")
  | none => false

/-- `a || b` on possibly-absent strings. -/
def jsOrS (a b : Option String) : Option String :=
  if strTruthy a then a else b

/-- The subtype domain of each item type, in declaration order
(`getRandomSubType`'s table). -/
def subTypeList : ItemType → List String
  | .weapon => ["Sword", "Axe", "Mace", "Dagger", "Bow", "Crossbow", "Staff",
                "Wand", "Spear", "Hammer", "Shield"]
  | .armor => ["Helmet", "Chestpiece", "Leggings", "Boots", "Gloves", "Cloak",
               "Greaves", "Pauldrons", "Bracers"]
  | .accessory => ["Ring", "Amulet", "Earrings", "Brooch", "Pendant"]
  | .consumable => ["Potion", "Scroll", "Food", "Elixir", "Tome"]
  | .material => ["Ore", "Gem", "Essence", "Crystal", "Herb"]
  | .rune => ["Lesser Rune", "Greater Rune", "Master Rune", "Divine Rune"]
  | .artifact => ["Ancient Relic", "Mystic Artifact", "Divine Artifact",
                  "Primordial Remnant"]

/-- `LootGenerator.getRandomSubType` for a recognized item type:
`options[Math.floor(Math.random() * options.length)]`, the random index
supplied as a natural number reduced modulo the list length. -/
def randomSubType (t : ItemType) (k : ℕ) : String :=
  (subTypeList t).getD (k % (subTypeList t).length) ""

/-- The rarity roll of `generateLoot`:
`Math.floor(Math.random() * (max - min + 1) + min)` over the tier's band. -/
def rollRarity (tier : LootTier) (rr : ℚ) : ℤ :=
  let r := getRarityRange tier
  ⌊rr * ((r.max - r.min + 1 : ℤ) : ℚ) + (r.min : ℚ)⌋

/-- The residual ACCEPT/REJECT content of `LootItemSchema.parse` on an item
whose fields already carry the types above: the `rarity` bound
`min(0).max(100)`.  (The `subType` union ends in `z.string()` and so accepts
every string; every `ItemStats` shape satisfies the stats union —
`AccessoryStatsSchema` has only optional fields, so even flat records pass.)
The parse's REWRITE of the stats object — the union's first-match strip-mode
output — is `parseStats`, applied where `reconcile` assembles the item. -/
def lootItemValid (it : LootItem) : Bool :=
  decide (0 ≤ it.rarity) && decide (it.rarity ≤ 100)

/-- The `setName` override of `generateLoot`: the request's set name replaces
the model's when (and only when) it is truthy. -/
def pickSetName (opts : GenerationOptions) (gen : GeneratedItem) : Option String :=
  if strTruthy opts.setName then opts.setName else gen.setName

/-- The post-service part of one loop body of `LootGenerator.generateLoot`,
applied to the parsed service reply: assemble `structuredItem` exactly as
the source does and run `LootItemSchema.parse` on it — the stats block is
rewritten by the union's strip-mode parse (`parseStats`), and the item is
accepted iff the residual check (`lootItemValid`) passes.  `none` results
cover a thrown `TypeError` in `getRandomSubType` (unrecognized type string
with no subtype available) and `LootItemSchema.parse` failures; the caller
(`attempt`) folds in service/JSON errors and the prompt-phase throw. -/
def reconcile (opts : GenerationOptions) (gen : GeneratedItem) (r : RandSource) :
    Option LootItem :=
  let typeStr := jsOrS (opts.itemType.map ItemType.str) gen.type
  let parsedType := typeStr.bind parseItemType
  let subTypeRes : Option String :=
    if strTruthy opts.subType then opts.subType
    else if strTruthy gen.subType then gen.subType
    else parsedType.map (fun t => randomSubType t r.sub)
  subTypeRes.bind fun st =>
  gen.name.bind fun nm =>
  parsedType.bind fun t =>
  gen.description.bind fun ds =>
  let item : LootItem :=
    { name := nm
      type := t
      subType := st
      tier := opts.tier
      description := ds
      stats := parseStats (transformToStructuredStats gen.stats parsedType opts.tier r.stat)
      magicalProperties := gen.magicalProperties
      lore := gen.lore
      setName := pickSetName opts gen
      rarity := rollRarity opts.tier r.rar }
  if lootItemValid item then some item else none

/-- `generatePrompt` runs at the start of every loop iteration, BEFORE the
service call; when the request has no item type and a falsy subtype it
evaluates `this.getRandomSubType(itemType!)` with `itemType` undefined,
indexing into `subTypes[undefined]` — a thrown `TypeError`, so the whole
iteration fails without the service ever being consulted. -/
def promptThrows (opts : GenerationOptions) : Bool :=
  !(strTruthy opts.subType) && opts.itemType.isNone

/-- The outcome of loop iteration `i` of `generateLoot`: build the prompt
(which can throw, see `promptThrows`), call the service and `JSON.parse` the
reply (the oracle; `none` on failure), then reconcile with that iteration's
randomness. -/
def attempt (opts : GenerationOptions) (oracle : ℕ → Option GeneratedItem)
    (rands : ℕ → RandSource) (i : ℕ) : Option LootItem :=
  if promptThrows opts then none
  else (oracle i).bind (fun g => reconcile opts g (rands i))

/-- `LootGenerator.generateLoot`: loop `count` times, pushing each
successfully validated item and skipping failed iterations (the `catch`
only logs and continues). -/
def generateLoot (opts : GenerationOptions) (oracle : ℕ → Option GeneratedItem)
    (rands : ℕ → RandSource) : List LootItem :=
  (List.range opts.count).foldl
    (fun acc i =>
      match attempt opts oracle rands i with
      | some item => acc ++ [item]
      | none => acc)
    []

/-- `LootGenerator.generateLootSet`: one `generateLoot` call per item type in
order, each with `count = 1`, the shared tier and set name, results pushed in
order.  Call `j` uses the `j`-th oracle and randomness. -/
def generateLootSet (setName : String) (tier : LootTier) (itemTypes : List ItemType)
    (oracles : ℕ → ℕ → Option GeneratedItem) (rands : ℕ → ℕ → RandSource) :
    List LootItem :=
  (itemTypes.enum).foldl
    (fun acc p =>
      acc ++ generateLoot
        { tier := tier, count := 1, itemType := some p.2, subType := none,
          setName := some setName }
        (oracles p.1) (rands p.1))
    []

/-- The name order used by `generateHash`'s comparator
(`a.name.localeCompare(b.name)`, modelled as the code-point order on
strings). -/
def propNameLE (a b : MagicalProperty) : Prop := a.name ≤ b.name

instance : DecidableRel propNameLE := fun a b => by
  unfold propNameLE; infer_instance

instance : IsTotal MagicalProperty propNameLE :=
  ⟨fun a b => le_total a.name b.name⟩

instance : IsTrans MagicalProperty propNameLE :=
  ⟨fun _ _ _ h₁ h₂ => le_trans h₁ h₂⟩

/-- `item.magicalProperties?.sort(...)`: `Array.prototype.sort` is stable, and
every stable sort by the same key computes the same list, so insertion sort
models it exactly. -/
def sortProps (l : List MagicalProperty) : List MagicalProperty :=
  l.insertionSort propNameLE

/-- The canonical content record serialized and hashed by
`LootDatabase.generateHash`.  The SHA-256 digest of the `JSON.stringify` of
this record is modelled by the record itself: the serialization is injective
on this fixed shape and the digest is treated as collision-free. -/
structure HashContent where
  name : String
  type : ItemType
  subType : String
  tier : LootTier
  description : String
  stats : ItemStats
  magicalProperties : Option (List MagicalProperty)
  lore : Option String
  setName : Option String
deriving DecidableEq, Repr

/-- `LootDatabase.generateHash`: `rarity` (and the storage metadata `id`,
`createdAt`, which a plain `LootItem` does not even carry) is excluded;
`magicalProperties` is sorted by name first.  The `.sort` happens in place on
the argument — `mutateForHash` below exposes that frame effect. -/
def generateHash (item : LootItem) : HashContent :=
  { name := item.name
    type := item.type
    subType := item.subType
    tier := item.tier
    description := item.description
    stats := item.stats
    magicalProperties := item.magicalProperties.map sortProps
    lore := item.lore
    setName := item.setName }

/-- The caller-visible state of an item after `generateHash` ran on it: the
in-place `.sort` left `magicalProperties` name-sorted (when present); nothing
else changes. -/
def mutateForHash (item : LootItem) : LootItem :=
  { item with magicalProperties := item.magicalProperties.map sortProps }

/-- A row of the `items` table (`DatabaseItem` from `src/types.ts`). -/
structure DatabaseItem where
  id : ℕ
  name : String
  type : ItemType
  subType : String
  tier : LootTier
  description : String
  stats : ItemStats
  magicalProperties : Option (List MagicalProperty)
  lore : Option String
  setName : Option String
  rarity : ℤ
  hash : HashContent
  createdAt : String
deriving DecidableEq, Repr

/-- The SQLite store: the `items` rows in insertion order plus the
autoincrement counter. -/
structure DBState where
  rows : List DatabaseItem
  nextId : ℕ
deriving DecidableEq, Repr

/-- `LootDatabase.getItemByHash`: point lookup on the unique `hash` column. -/
def getItemByHash (db : DBState) (h : HashContent) : Option DatabaseItem :=
  db.rows.find? (fun row => row.hash == h)

/-- `LootDatabase.saveItem` with the insertion timestamp passed explicitly.
Returns the stored row (the existing one on a duplicate hash, the freshly
inserted one otherwise), the new store state, and the caller's item as
`generateHash` left it (its `magicalProperties` sorted in place, and the
stored row therefore holds the sorted list too). -/
def saveItem (db : DBState) (item : LootItem) (now : String) :
    Option DatabaseItem × DBState × LootItem :=
  let h := generateHash item
  let item' := mutateForHash item
  match getItemByHash db h with
  | some existing => (some existing, db, item')
  | none =>
    let row : DatabaseItem :=
      { id := db.nextId
        name := item'.name
        type := item'.type
        subType := item'.subType
        tier := item'.tier
        description := item'.description
        stats := item'.stats
        magicalProperties := item'.magicalProperties
        lore := item'.lore
        setName := item'.setName
        rarity := item'.rarity
        hash := h
        createdAt := now }
    (some row, { rows := db.rows ++ [row], nextId := db.nextId + 1 }, item')

/-- How many stored rows carry a given content hash. -/
def hashCount (db : DBState) (h : HashContent) : ℕ :=
  (db.rows.filter (fun row => row.hash == h)).length

/-! ## General lemmas about the embedded operations -/

theorem foldl_push_eq_filterMap {α β : Type} (f : α → Option β) :
    ∀ (l : List α) (acc : List β),
      (l.foldl (fun acc i => acc ++ (f i).toList) acc) = acc ++ l.filterMap f
  | [], acc => by simp
  | i :: l, acc => by
    cases h : f i <;>
      simp [List.filterMap_cons, h, foldl_push_eq_filterMap f l]

theorem generateLoot_eq_filterMap (opts : GenerationOptions)
    (oracle : ℕ → Option GeneratedItem) (rands : ℕ → RandSource) :
    generateLoot opts oracle rands =
      (List.range opts.count).filterMap (attempt opts oracle rands) := by
  unfold generateLoot
  have hfun : (fun (acc : List LootItem) (i : ℕ) =>
      match attempt opts oracle rands i with
      | some item => acc ++ [item]
      | none => acc) = fun acc i => acc ++ (attempt opts oracle rands i).toList := by
    funext acc i
    cases attempt opts oracle rands i <;> simp
  rw [hfun]
  simpa using foldl_push_eq_filterMap (attempt opts oracle rands) (List.range opts.count) []

theorem mem_generateLoot {opts : GenerationOptions} {oracle : ℕ → Option GeneratedItem}
    {rands : ℕ → RandSource} {item : LootItem} :
    item ∈ generateLoot opts oracle rands ↔
      ∃ i ∈ List.range opts.count, attempt opts oracle rands i = some item := by
  rw [generateLoot_eq_filterMap]
  exact List.mem_filterMap

theorem attempt_eq_some {opts : GenerationOptions} {oracle : ℕ → Option GeneratedItem}
    {rands : ℕ → RandSource} {i : ℕ} {item : LootItem}
    (h : attempt opts oracle rands i = some item) :
    ∃ g, oracle i = some g ∧ reconcile opts g (rands i) = some item := by
  unfold attempt at h
  split at h
  · cases h
  · cases ho : oracle i with
    | none => rw [ho] at h; cases h
    | some g =>
      rw [ho] at h
      exact ⟨g, rfl, h⟩

theorem reconcile_some_spec {opts : GenerationOptions} {gen : GeneratedItem}
    {r : RandSource} {item : LootItem} (h : reconcile opts gen r = some item) :
    item.tier = opts.tier ∧
    item.rarity = rollRarity opts.tier r.rar ∧
    lootItemValid item = true ∧
    (strTruthy opts.setName = true → item.setName = opts.setName) ∧
    (∀ s, opts.subType = some s → s ≠ "" → item.subType = s) := by
  unfold reconcile at h
  simp only [Option.bind_eq_some] at h
  obtain ⟨st, hst, nm, hnm, t, ht, ds, hds, hfin⟩ := h
  split at hfin
  · cases hfin
    refine ⟨rfl, rfl, by assumption, fun hset => by simp [pickSetName, hset],
      fun s hs hs' => ?_⟩
    have htr : strTruthy opts.subType = true := by simp [hs, strTruthy, hs']
    rw [if_pos htr, hs] at hst
    cases hst
    rfl
  · cases hfin

theorem reconcile_rarity_independent (opts : GenerationOptions) (gen : GeneratedItem)
    (r : RandSource) (q : Option ℚ) :
    reconcile opts { gen with rarity := q } r = reconcile opts gen r := by
  cases gen
  rfl

theorem rollRarity_bounds {a b : ℤ} {rr : ℚ} (hab : a ≤ b) (h0 : 0 ≤ rr) (h1 : rr < 1) :
    a ≤ ⌊rr * ((b - a + 1 : ℤ) : ℚ) + (a : ℚ)⌋ ∧
      ⌊rr * ((b - a + 1 : ℤ) : ℚ) + (a : ℚ)⌋ ≤ b := by
  have hba : (0 : ℚ) < ((b - a + 1 : ℤ) : ℚ) := by
    push_cast
    have : (a : ℚ) ≤ (b : ℚ) := by exact_mod_cast hab
    linarith
  constructor
  · apply Int.le_floor.2
    nlinarith
  · have hlt : rr * ((b - a + 1 : ℤ) : ℚ) + (a : ℚ) < ((b + 1 : ℤ) : ℚ) := by
      push_cast
      push_cast at hba
      nlinarith
    have := Int.floor_lt.2 hlt
    omega

theorem rollRarity_mem (tier : LootTier) {rr : ℚ} (h0 : 0 ≤ rr) (h1 : rr < 1) :
    (getRarityRange tier).min ≤ rollRarity tier rr ∧
      rollRarity tier rr ≤ (getRarityRange tier).max := by
  cases tier <;>
    exact rollRarity_bounds (by norm_num [getRarityRange]) h0 h1

/-! ## C2: rarity band invariant -/

/-- C2: every item successfully returned by `generateLoot` carries an integer
rarity inside the requested tier's configured band, the bands are exactly
Bronze 5-25, Silver 20-40, Gold 35-60, Platinum 55-75, Legendary 70-90,
Celestial 85-100, and the rarity field of the model's reply has no influence
on the outcome (the whole reconciled item is unchanged under any replacement
of it). -/
theorem rarity_band_invariant (opts : GenerationOptions)
    (oracle : ℕ → Option GeneratedItem) (rands : ℕ → RandSource)
    (hr : ∀ i, 0 ≤ (rands i).rar ∧ (rands i).rar < 1) :
    (∀ item ∈ generateLoot opts oracle rands,
        (getRarityRange opts.tier).min ≤ item.rarity ∧
          item.rarity ≤ (getRarityRange opts.tier).max) ∧
    (getRarityRange .bronze = ⟨5, 25⟩ ∧ getRarityRange .silver = ⟨20, 40⟩ ∧
      getRarityRange .gold = ⟨35, 60⟩ ∧ getRarityRange .platinum = ⟨55, 75⟩ ∧
      getRarityRange .legendary = ⟨70, 90⟩ ∧ getRarityRange .celestial = ⟨85, 100⟩) ∧
    (∀ (gen : GeneratedItem) (r : RandSource) (q : Option ℚ),
        reconcile opts { gen with rarity := q } r = reconcile opts gen r) := by
  refine ⟨fun item hmem => ?_, by norm_num [getRarityRange],
    fun gen r q => reconcile_rarity_independent opts gen r q⟩
  obtain ⟨i, _, hi⟩ := mem_generateLoot.1 hmem
  obtain ⟨g, hg, hrec⟩ := attempt_eq_some hi
  have hrar := (reconcile_some_spec hrec).2.1
  rw [hrar]
  exact rollRarity_mem opts.tier (hr i).1 (hr i).2

/-! ## C3: partial-failure resilience of the generation loop -/

/-- C3: `generateLoot` visits exactly `count` attempt indices (its result is
the `filterMap` of the per-attempt outcome over `range count`, so failed
attempts contribute nothing and the loop never aborts early, successes
appearing in attempt order), the result length is at most `count`, and every
returned item passes the `LootItem` schema validation. -/
theorem generation_partial_failure (opts : GenerationOptions)
    (oracle : ℕ → Option GeneratedItem) (rands : ℕ → RandSource) :
    generateLoot opts oracle rands =
      (List.range opts.count).filterMap (attempt opts oracle rands) ∧
    (generateLoot opts oracle rands).length ≤ opts.count ∧
    ∀ item ∈ generateLoot opts oracle rands, lootItemValid item = true := by
  refine ⟨generateLoot_eq_filterMap opts oracle rands, ?_, ?_⟩
  · rw [generateLoot_eq_filterMap]
    simpa using List.length_filterMap_le (attempt opts oracle rands) (List.range opts.count)
  · intro item hmem
    obtain ⟨i, _, hi⟩ := mem_generateLoot.1 hmem
    obtain ⟨g, _, hrec⟩ := attempt_eq_some hi
    exact (reconcile_some_spec hrec).2.2.1

/-! ## Request authority over model output -/

theorem str_ne_empty (t : ItemType) : ItemType.str t ≠ "" := by
  cases t <;> simp [ItemType.str]

theorem parse_str (t : ItemType) : parseItemType (ItemType.str t) = some t := by
  cases t <;> simp [parseItemType, ItemType.str]

theorem jsOrS_of_itemType (t : ItemType) (z : Option String) :
    jsOrS (some (ItemType.str t)) z = some (ItemType.str t) := by
  simp [jsOrS, strTruthy, str_ne_empty t]

theorem reconcile_itemType_spec {opts : GenerationOptions} {gen : GeneratedItem}
    {r : RandSource} {item : LootItem} {t : ItemType} (htype : opts.itemType = some t)
    (h : reconcile opts gen r = some item) :
    item.type = t ∧
    item.stats =
      parseStats (transformToStructuredStats gen.stats (some t) opts.tier r.stat) := by
  unfold reconcile at h
  rw [htype] at h
  simp only [Option.map_some', jsOrS_of_itemType, Option.some_bind, parse_str,
    Option.bind_eq_some] at h
  obtain ⟨st, hst, nm, hnm, ds, hds, hfin⟩ := h
  split at hfin
  · cases hfin
    exact ⟨rfl, rfl⟩
  · cases hfin

theorem reconcile_model_type_tier_ignored (opts : GenerationOptions)
    (gen : GeneratedItem) (r : RandSource) (x y : Option String) {t : ItemType}
    (htype : opts.itemType = some t) :
    reconcile opts { gen with type := x, tier := y } r = reconcile opts gen r := by
  cases gen
  unfold reconcile
  rw [htype]
  simp [jsOrS_of_itemType, pickSetName]

/-- C8: when the request specifies an item type, every successfully
reconciled item carries the request's type and tier, its stat block is the
schema's parse of the block computed from the request's item type and tier
(the baseline inside `transformToStructuredStats` uses the request's values;
`parseStats` is the union's strip-mode rewrite that `LootItemSchema.parse`
applies on top), a specified (non-empty) subtype and a specified (non-empty)
set name are carried verbatim, and the model's claimed `type`/`tier` have no
influence on the outcome at all. -/
theorem request_authority {opts : GenerationOptions} {gen : GeneratedItem}
    {r : RandSource} {item : LootItem} {t : ItemType}
    (htype : opts.itemType = some t)
    (h : reconcile opts gen r = some item) :
    item.type = t ∧ item.tier = opts.tier ∧
    item.stats =
      parseStats (transformToStructuredStats gen.stats (some t) opts.tier r.stat) ∧
    (∀ s, opts.subType = some s → s ≠ "" → item.subType = s) ∧
    (∀ nm, opts.setName = some nm → nm ≠ "" → item.setName = some nm) ∧
    ∀ x y, reconcile opts { gen with type := x, tier := y } r = reconcile opts gen r := by
  obtain ⟨htier, _, _, hsetc, hsubc⟩ := reconcile_some_spec h
  obtain ⟨hty, hstats⟩ := reconcile_itemType_spec htype h
  refine ⟨hty, htier, hstats, hsubc, fun nm hnm hnm' => ?_,
    fun x y => reconcile_model_type_tier_ignored opts gen r x y htype⟩
  have hw := hsetc (by simp [hnm, strTruthy, hnm'])
  rw [hnm] at hw
  exact hw

/-! ## C6: there is no upfront request validation -/

/-- C6 (amended): a request with `count = 0` produces the empty result with
no generation attempt and no surfaced error, and a request whose
type/subtype pair lies outside the closed subtype domain is not rejected at
any stage: reconciliation proceeds and a successful item simply carries the
request's mismatched pair (the schema's `subType` union accepts any
string). -/
theorem request_validation_amended :
    (∀ (opts : GenerationOptions) (oracle : ℕ → Option GeneratedItem)
        (rands : ℕ → RandSource), opts.count = 0 →
        generateLoot opts oracle rands = []) ∧
    (∀ (opts : GenerationOptions) (gen : GeneratedItem) (r : RandSource)
        (item : LootItem) (t : ItemType) (s : String),
        opts.itemType = some t → opts.subType = some s → s ≠ "" →
        reconcile opts gen r = some item →
        item.type = t ∧ item.subType = s) := by
  constructor
  · intro opts oracle rands hc
    rw [generateLoot_eq_filterMap, hc]
    simp
  · intro opts gen r item t s ht hs hs' h
    exact ⟨(reconcile_itemType_spec ht h).1, (reconcile_some_spec h).2.2.2.2 s hs hs'⟩

/-! ## C7: set coordination -/

theorem foldl_append_eq_flatten {α β : Type} (f : α → List β) :
    ∀ (l : List α) (acc : List β),
      l.foldl (fun acc x => acc ++ f x) acc = acc ++ (l.map f).flatten
  | [], acc => by simp
  | x :: l, acc => by
    simp [foldl_append_eq_flatten f l, List.append_assoc]

theorem generateLootSet_eq (setName : String) (tier : LootTier)
    (itemTypes : List ItemType) (oracles : ℕ → ℕ → Option GeneratedItem)
    (rands : ℕ → ℕ → RandSource) :
    generateLootSet setName tier itemTypes oracles rands =
      (itemTypes.enum.map (fun p =>
        generateLoot
          { tier := tier, count := 1, itemType := some p.2, subType := none,
            setName := some setName }
          (oracles p.1) (rands p.1))).flatten := by
  unfold generateLootSet
  simpa using foldl_append_eq_flatten _ itemTypes.enum []

/-- C7 (amended): for every NON-EMPTY set name, `generateLootSet` is the
in-order concatenation of one single-count `generateLoot` call per item type
(so an item type whose attempt fails contributes nothing — skipped, not
padded), and every returned item carries the requested set name and tier and
passes validation.  (With the empty set name the `options.setName` truthiness
guard in `generateLoot` skips the override, so items keep the model's set
name — see the counterexample.) -/
theorem set_coordination_amended (setName : String) (hne : setName ≠ "")
    (tier : LootTier) (itemTypes : List ItemType)
    (oracles : ℕ → ℕ → Option GeneratedItem) (rands : ℕ → ℕ → RandSource) :
    generateLootSet setName tier itemTypes oracles rands =
      (itemTypes.enum.map (fun p =>
        generateLoot
          { tier := tier, count := 1, itemType := some p.2, subType := none,
            setName := some setName }
          (oracles p.1) (rands p.1))).flatten ∧
    ∀ item ∈ generateLootSet setName tier itemTypes oracles rands,
      item.setName = some setName ∧ item.tier = tier ∧ lootItemValid item = true := by
  refine ⟨generateLootSet_eq setName tier itemTypes oracles rands, fun item hmem => ?_⟩
  rw [generateLootSet_eq] at hmem
  simp only [List.mem_flatten, List.mem_map] at hmem
  obtain ⟨_, ⟨p, _, rfl⟩, hitem⟩ := hmem
  obtain ⟨i, _, hi⟩ := mem_generateLoot.1 hitem
  obtain ⟨g, _, hrec⟩ := attempt_eq_some hi
  obtain ⟨htier, _, hvalid, hsetc, _⟩ := reconcile_some_spec hrec
  exact ⟨hsetc (by simp [strTruthy, hne]), htier, hvalid⟩

/-! ## C1 and C10: identity hashing, deduplication, and the in-place sort -/

/-- The strict version of the name order: what `propNameLE` plus distinct
names give on a sorted list. -/
def propNameStrict (a b : MagicalProperty) : Prop :=
  propNameLE a b ∧ a.name ≠ b.name

instance : IsAntisymm MagicalProperty propNameStrict :=
  ⟨fun _ _ h₁ h₂ => absurd (le_antisymm h₁.1 h₂.1) h₁.2⟩

theorem sortProps_perm (l : List MagicalProperty) : (sortProps l).Perm l :=
  List.perm_insertionSort propNameLE l

theorem sortProps_sorted (l : List MagicalProperty) :
    (sortProps l).Sorted propNameLE :=
  List.sorted_insertionSort propNameLE l

theorem sorted_strict_of_nodup {l : List MagicalProperty}
    (hs : l.Sorted propNameLE) (hnd : (l.map MagicalProperty.name).Nodup) :
    l.Sorted propNameStrict := by
  have hne : l.Pairwise (fun a b => a.name ≠ b.name) := List.pairwise_map.1 hnd
  exact hs.and hne

/-- Sorting by name is permutation-invariant as long as no two properties
share a name: a stable sort cannot reorder same-named entries, but with
distinct names the sorted list is unique. -/
theorem sortProps_eq_of_perm {l₁ l₂ : List MagicalProperty} (h : l₁.Perm l₂)
    (hnd : (l₁.map MagicalProperty.name).Nodup) : sortProps l₁ = sortProps l₂ := by
  have hp : (sortProps l₁).Perm (sortProps l₂) :=
    ((sortProps_perm l₁).trans h).trans (sortProps_perm l₂).symm
  have hnd₁ : ((sortProps l₁).map MagicalProperty.name).Nodup :=
    ((sortProps_perm l₁).map MagicalProperty.name).nodup_iff.2 hnd
  have hnd₂ : ((sortProps l₂).map MagicalProperty.name).Nodup :=
    (hp.map MagicalProperty.name).nodup_iff.1 hnd₁
  exact List.eq_of_perm_of_sorted hp
    (sorted_strict_of_nodup (sortProps_sorted l₁) hnd₁)
    (sorted_strict_of_nodup (sortProps_sorted l₂) hnd₂)

/-- Saving an item whose hash equals an already-saved item's hash returns the
first save's stored row and leaves the store untouched. -/
theorem saveItem_duplicate {X Y : LootItem} (hhash : generateHash Y = generateHash X)
    (db : DBState) (now₁ now₂ : String) :
    saveItem ((saveItem db X now₁).2.1) Y now₂ =
      ((saveItem db X now₁).1, (saveItem db X now₁).2.1, mutateForHash Y) := by
  unfold saveItem
  rw [hhash]
  cases hfind : getItemByHash db (generateHash X) with
  | some e => simp [hfind]
  | none =>
    have hfind' : db.rows.find? (fun row => row.hash == generateHash X) = none := hfind
    simp only [hfind]
    unfold getItemByHash
    simp [List.find?_append, hfind']

theorem getItemByHash_of_hashCount_zero {db : DBState} {h : HashContent}
    (h0 : hashCount db h = 0) : getItemByHash db h = none := by
  have hnil : db.rows.filter (fun row => row.hash == h) = [] :=
    List.length_eq_zero.1 h0
  unfold getItemByHash
  rw [List.find?_eq_none]
  intro x hx hbx
  have : x ∈ db.rows.filter (fun row => row.hash == h) :=
    List.mem_filter.2 ⟨hx, hbx⟩
  simp [hnil] at this

/-- C1 (amended): two items agreeing on name, type, subType, tier,
description, stats, lore and setName whose magical-property lists are
permutations of each other WITH PAIRWISE-DISTINCT PROPERTY NAMES (the
name-keyed stable sort cannot reorder same-named entries, see the
counterexample) hash identically even if their rarities differ; saving the
two in sequence stores at most one new row — the second save returns exactly
the first save's stored row and leaves the store untouched — and starting
from a store without this hash, exactly one row with it exists after the
saves. -/
theorem identity_idempotent {X Y : LootItem} {l₁ l₂ : List MagicalProperty}
    (hname : X.name = Y.name) (htype : X.type = Y.type) (hsub : X.subType = Y.subType)
    (htier : X.tier = Y.tier) (hdesc : X.description = Y.description)
    (hstats : X.stats = Y.stats) (hm₁ : X.magicalProperties = some l₁)
    (hm₂ : Y.magicalProperties = some l₂) (hperm : l₁.Perm l₂)
    (hnd : (l₁.map MagicalProperty.name).Nodup)
    (hlore : X.lore = Y.lore) (hset : X.setName = Y.setName) :
    generateHash X = generateHash Y ∧
    (∀ (db : DBState) (now₁ now₂ : String),
      saveItem ((saveItem db X now₁).2.1) Y now₂ =
        ((saveItem db X now₁).1, (saveItem db X now₁).2.1, mutateForHash Y)) ∧
    (∀ (db : DBState) (now₁ : String), hashCount db (generateHash X) = 0 →
      hashCount ((saveItem db X now₁).2.1) (generateHash X) = 1) := by
  have hhash : generateHash X = generateHash Y := by
    simp [generateHash, hname, htype, hsub, htier, hdesc, hstats, hlore, hset,
      hm₁, hm₂, sortProps_eq_of_perm hperm hnd]
  refine ⟨hhash, fun db now₁ now₂ => saveItem_duplicate hhash.symm db now₁ now₂,
    fun db now₁ h0 => ?_⟩
  have hfind := getItemByHash_of_hashCount_zero h0
  have hnil : db.rows.filter (fun row => row.hash == generateHash X) = [] :=
    List.length_eq_zero.1 h0
  simp [saveItem, hfind, hashCount, List.filter_append, hnil]

/-- C10: `saveItem` mutates its argument: `generateHash`'s in-place `.sort`
leaves the caller's non-empty `magicalProperties` list name-sorted (a
permutation of the original, sorted by name), and every other field is
unchanged. -/
theorem saveItem_mutates_input (db : DBState) (item : LootItem) (now : String)
    (l : List MagicalProperty) (hm : item.magicalProperties = some l) (_hne : l ≠ []) :
    (saveItem db item now).2.2 = { item with magicalProperties := some (sortProps l) } ∧
    (sortProps l).Perm l ∧ (sortProps l).Sorted propNameLE := by
  refine ⟨?_, sortProps_perm l, sortProps_sorted l⟩
  unfold saveItem
  cases hfind : getItemByHash db (generateHash item) <;>
    simp [hfind, mutateForHash, hm]

/-! ## C4: monotonicity of the stat range tables -/

/-- The consecutive tier pairs, in ascending power order. -/
def adjacentTierPairs : List (LootTier × LootTier) :=
  [(.bronze, .silver), (.silver, .gold), (.gold, .platinum),
   (.platinum, .legendary), (.legendary, .celestial)]

/-- Both bounds non-decreasing from `a` to `b`. -/
def rangeLE (a b : StatRange) : Prop := a.min ≤ b.min ∧ a.max ≤ b.max

/-- The `weight` pattern the tables actually follow: the maximum grows with
tier while the minimum shrinks (or stays put). -/
def weightPattern (a b : StatRange) : Prop := b.min ≤ a.min ∧ a.max ≤ b.max

/-- C4 (amended): across every consecutive tier pair, every stat range of
every stat-bearing item type is non-decreasing in both bounds — EXCEPT
`weight` (present for weapons, armor and accessories), whose maximum is
non-decreasing but whose minimum is non-increasing (strictly decreasing for
weapons and armor; see the counterexample against the original claim). -/
theorem stat_scaling_amended : ∀ p ∈ adjacentTierPairs,
    (rangeLE (getWeaponStatRanges p.1).damage (getWeaponStatRanges p.2).damage ∧
     rangeLE (getWeaponStatRanges p.1).attackSpeed (getWeaponStatRanges p.2).attackSpeed ∧
     rangeLE (getWeaponStatRanges p.1).criticalChance (getWeaponStatRanges p.2).criticalChance ∧
     rangeLE (getWeaponStatRanges p.1).criticalDamage (getWeaponStatRanges p.2).criticalDamage ∧
     rangeLE (getWeaponStatRanges p.1).range (getWeaponStatRanges p.2).range ∧
     rangeLE (getWeaponStatRanges p.1).accuracy (getWeaponStatRanges p.2).accuracy ∧
     rangeLE (getWeaponStatRanges p.1).durability (getWeaponStatRanges p.2).durability ∧
     rangeLE (getWeaponStatRanges p.1).value (getWeaponStatRanges p.2).value ∧
     weightPattern (getWeaponStatRanges p.1).weight (getWeaponStatRanges p.2).weight) ∧
    (rangeLE (getArmorStatRanges p.1).defense (getArmorStatRanges p.2).defense ∧
     rangeLE (getArmorStatRanges p.1).magicResistance (getArmorStatRanges p.2).magicResistance ∧
     rangeLE (getArmorStatRanges p.1).elementalResistance (getArmorStatRanges p.2).elementalResistance ∧
     rangeLE (getArmorStatRanges p.1).durability (getArmorStatRanges p.2).durability ∧
     rangeLE (getArmorStatRanges p.1).value (getArmorStatRanges p.2).value ∧
     weightPattern (getArmorStatRanges p.1).weight (getArmorStatRanges p.2).weight) ∧
    (rangeLE (getAccessoryStatRanges p.1).health (getAccessoryStatRanges p.2).health ∧
     rangeLE (getAccessoryStatRanges p.1).mana (getAccessoryStatRanges p.2).mana ∧
     rangeLE (getAccessoryStatRanges p.1).stamina (getAccessoryStatRanges p.2).stamina ∧
     rangeLE (getAccessoryStatRanges p.1).attributes (getAccessoryStatRanges p.2).attributes ∧
     rangeLE (getAccessoryStatRanges p.1).luck (getAccessoryStatRanges p.2).luck ∧
     rangeLE (getAccessoryStatRanges p.1).durability (getAccessoryStatRanges p.2).durability ∧
     rangeLE (getAccessoryStatRanges p.1).value (getAccessoryStatRanges p.2).value ∧
     weightPattern (getAccessoryStatRanges p.1).weight (getAccessoryStatRanges p.2).weight) ∧
    (rangeLE (getConsumableStatRanges p.1).healingPower (getConsumableStatRanges p.2).healingPower ∧
     rangeLE (getConsumableStatRanges p.1).manaPower (getConsumableStatRanges p.2).manaPower ∧
     rangeLE (getConsumableStatRanges p.1).duration (getConsumableStatRanges p.2).duration ∧
     rangeLE (getConsumableStatRanges p.1).stackSize (getConsumableStatRanges p.2).stackSize ∧
     rangeLE (getConsumableStatRanges p.1).value (getConsumableStatRanges p.2).value) ∧
    (rangeLE (getMaterialStatRanges p.1).purity (getMaterialStatRanges p.2).purity ∧
     rangeLE (getMaterialStatRanges p.1).stackSize (getMaterialStatRanges p.2).stackSize ∧
     rangeLE (getMaterialStatRanges p.1).craftingBonus (getMaterialStatRanges p.2).craftingBonus ∧
     rangeLE (getMaterialStatRanges p.1).value (getMaterialStatRanges p.2).value) := by
  intro p hp
  fin_cases hp <;>
    norm_num [rangeLE, weightPattern, getWeaponStatRanges, getArmorStatRanges,
      getAccessoryStatRanges, getConsumableStatRanges, getMaterialStatRanges]

/-- C4 (counterexample): the weapon `weight` minimum strictly DECREASES from
Bronze (1.0) to Silver (0.8), so it is not true that for every stat of every
stat-bearing item type both bounds are non-decreasing as tier increases. -/
theorem stat_scaling_cex :
    ¬ ((getWeaponStatRanges .bronze).weight.min ≤
        (getWeaponStatRanges .silver).weight.min) := by
  norm_num [getWeaponStatRanges]

/-! ## C5: the per-field merge of model stats over the baseline -/

/-- What the spec asserts of an optional-field merge result `out`: the
model's value when present (zero included), the baseline `b` otherwise. -/
def pickSpec (ai : List (String × ℚ)) (k : String) (b out : ℚ) : Prop :=
  (∀ v, lookupStat ai k = some v → out = v) ∧
  (lookupStat ai k = none → out = b)

/-- What actually happens on the `||`-guarded required fields: a
model-supplied zero falls back to the baseline. -/
def pickReqSpec (ai : List (String × ℚ)) (k : String) (b out : ℚ) : Prop :=
  (∀ v, lookupStat ai k = some v → v ≠ 0 → out = v) ∧
  (lookupStat ai k = some 0 → out = b) ∧
  (lookupStat ai k = none → out = b)

theorem pick_spec (ai : List (String × ℚ)) (k : String) (b : ℚ) :
    pickSpec ai k b (pick ai k b) := by
  refine ⟨fun v hv => ?_, fun hn => ?_⟩ <;> simp [pick, *]

theorem pickReq_spec (ai : List (String × ℚ)) (k : String) (b : ℚ) :
    pickReqSpec ai k b (pickReq ai k b) := by
  refine ⟨fun v hv hv0 => ?_, fun h0 => ?_, fun hn => ?_⟩ <;>
    simp [pickReq, pick, *]

theorem lookupStat_override (ai rest : List (String × ℚ)) (k : String) :
    ∀ base : List (String × ℚ),
      lookupStat (base.map (fun p => (p.1, (lookupStat ai p.1).getD p.2)) ++ rest) k =
        match lookupStat base k with
        | some b => some ((lookupStat ai k).getD b)
        | none => lookupStat rest k
  | [] => by simp [lookupStat]
  | p :: base => by
    by_cases hk : p.1 = k
    · subst hk
      simp [lookupStat]
    · simp [lookupStat, hk, lookupStat_override ai rest k base]

theorem lookupStat_filter_base (base : List (String × ℚ)) (k : String) :
    ∀ ai : List (String × ℚ),
      lookupStat (ai.filter (fun p => (lookupStat base p.1).isNone)) k =
        if lookupStat base k = none then lookupStat ai k else none
  | [] => by
    simp [lookupStat]
  | q :: ai => by
    have ih := lookupStat_filter_base base k ai
    by_cases hq : lookupStat base q.1 = none
    · by_cases hk : q.1 = k
      · subst hk
        simp [List.filter_cons, lookupStat, hq]
      · simp [List.filter_cons, lookupStat, hq, hk, ih]
    · have hqn : (lookupStat base q.1).isNone = false := by
        cases hcase : lookupStat base q.1 with
        | none => exact absurd hcase hq
        | some b => rfl
      by_cases hk : q.1 = k
      · subst hk
        simp [List.filter_cons, hqn, ih, hq]
      · simp [List.filter_cons, hqn, ih, lookupStat, hk]

theorem lookupStat_jsMerge (base ai : List (String × ℚ)) (k : String) :
    lookupStat (jsMerge base ai) k =
      match lookupStat base k with
      | some b => some ((lookupStat ai k).getD b)
      | none => lookupStat ai k := by
  unfold jsMerge
  rw [lookupStat_override]
  cases h : lookupStat base k with
  | some b => rfl
  | none =>
    rw [lookupStat_filter_base]
    simp [h]

/-- C5 (amended): the merge of model-supplied stats over the baseline is
per-field — for every optional stat key the model's value is taken whenever
supplied, INCLUDING a supplied value of `0`, with the baseline as fallback;
EXCEPT the two `||`-guarded required stats, `damage` (Weapon) and `defense`
(Armor), where a model-supplied `0` is falsy and falls back to the baseline
value (see the counterexample).  Rune/Artifact (and unrecognized) types get
the flat spread-merge with the same per-key preference.  The dispatch
equations anchor each branch to `transformToStructuredStats`. -/
theorem merge_per_field_amended (ai : List (String × ℚ)) (tier : LootTier) (u : ℕ → ℚ) :
    (transformToStructuredStats ai (some .weapon) tier u = .weapon (transformWeapon ai tier u) ∧
     transformToStructuredStats ai (some .armor) tier u = .armor (transformArmor ai tier u) ∧
     transformToStructuredStats ai (some .accessory) tier u = .accessory (transformAccessory ai tier u) ∧
     transformToStructuredStats ai (some .consumable) tier u = .consumable (transformConsumable ai tier u) ∧
     transformToStructuredStats ai (some .material) tier u = .material (transformMaterial ai tier u) ∧
     transformToStructuredStats ai (some .rune) tier u = .flat (jsMerge (defaultBaseline u) ai) ∧
     transformToStructuredStats ai (some .artifact) tier u = .flat (jsMerge (defaultBaseline u) ai)) ∧
    (pickReqSpec ai "damage" (weaponBaseline tier u).damage (transformWeapon ai tier u).damage ∧
     pickSpec ai "attackSpeed" (weaponBaseline tier u).attackSpeed (transformWeapon ai tier u).attackSpeed ∧
     pickSpec ai "criticalChance" (weaponBaseline tier u).criticalChance (transformWeapon ai tier u).criticalChance ∧
     pickSpec ai "criticalDamage" (weaponBaseline tier u).criticalDamage (transformWeapon ai tier u).criticalDamage ∧
     pickSpec ai "range" (weaponBaseline tier u).range (transformWeapon ai tier u).range ∧
     pickSpec ai "accuracy" (weaponBaseline tier u).accuracy (transformWeapon ai tier u).accuracy ∧
     pickSpec ai "durability" (weaponBaseline tier u).durability (transformWeapon ai tier u).durability ∧
     pickSpec ai "weight" (weaponBaseline tier u).weight (transformWeapon ai tier u).weight ∧
     pickSpec ai "value" (weaponBaseline tier u).value (transformWeapon ai tier u).value) ∧
    (pickReqSpec ai "defense" (armorBaseline tier u).defense (transformArmor ai tier u).defense ∧
     pickSpec ai "magicResistance" (armorBaseline tier u).magicResistance (transformArmor ai tier u).magicResistance ∧
     pickSpec ai "fireResistance" (armorBaseline tier u).fireResistance (transformArmor ai tier u).elementalResistance.fire ∧
     pickSpec ai "iceResistance" (armorBaseline tier u).iceResistance (transformArmor ai tier u).elementalResistance.ice ∧
     pickSpec ai "lightningResistance" (armorBaseline tier u).lightningResistance (transformArmor ai tier u).elementalResistance.lightning ∧
     pickSpec ai "poisonResistance" (armorBaseline tier u).poisonResistance (transformArmor ai tier u).elementalResistance.poison ∧
     (transformArmor ai tier u).elementalResistance.dark = lookupStat ai "darkResistance" ∧
     (transformArmor ai tier u).elementalResistance.light = lookupStat ai "lightResistance" ∧
     pickSpec ai "durability" (armorBaseline tier u).durability (transformArmor ai tier u).durability ∧
     pickSpec ai "weight" (armorBaseline tier u).weight (transformArmor ai tier u).weight ∧
     pickSpec ai "value" (armorBaseline tier u).value (transformArmor ai tier u).value) ∧
    (pickSpec ai "health" (accessoryBaseline tier u).health (transformAccessory ai tier u).health ∧
     pickSpec ai "mana" (accessoryBaseline tier u).mana (transformAccessory ai tier u).mana ∧
     pickSpec ai "stamina" (accessoryBaseline tier u).stamina (transformAccessory ai tier u).stamina ∧
     pickSpec ai "strength" (accessoryBaseline tier u).strength (transformAccessory ai tier u).strength ∧
     pickSpec ai "dexterity" (accessoryBaseline tier u).dexterity (transformAccessory ai tier u).dexterity ∧
     pickSpec ai "intelligence" (accessoryBaseline tier u).intelligence (transformAccessory ai tier u).intelligence ∧
     pickSpec ai "wisdom" (accessoryBaseline tier u).wisdom (transformAccessory ai tier u).wisdom ∧
     pickSpec ai "constitution" (accessoryBaseline tier u).constitution (transformAccessory ai tier u).constitution ∧
     pickSpec ai "luck" (accessoryBaseline tier u).luck (transformAccessory ai tier u).luck ∧
     pickSpec ai "durability" (accessoryBaseline tier u).durability (transformAccessory ai tier u).durability ∧
     pickSpec ai "weight" (accessoryBaseline tier u).weight (transformAccessory ai tier u).weight ∧
     pickSpec ai "value" (accessoryBaseline tier u).value (transformAccessory ai tier u).value) ∧
    (pickSpec ai "healingPower" (consumableBaseline tier u).healingPower (transformConsumable ai tier u).healingPower ∧
     pickSpec ai "manaPower" (consumableBaseline tier u).manaPower (transformConsumable ai tier u).manaPower ∧
     pickSpec ai "duration" (consumableBaseline tier u).duration (transformConsumable ai tier u).duration ∧
     pickSpec ai "stackSize" (consumableBaseline tier u).stackSize (transformConsumable ai tier u).stackSize ∧
     (transformConsumable ai tier u).durability = lookupStat ai "durability" ∧
     (transformConsumable ai tier u).weight = lookupStat ai "weight" ∧
     pickSpec ai "value" (consumableBaseline tier u).value (transformConsumable ai tier u).value) ∧
    (pickSpec ai "purity" (materialBaseline tier u).purity (transformMaterial ai tier u).purity ∧
     pickSpec ai "stackSize" (materialBaseline tier u).stackSize (transformMaterial ai tier u).stackSize ∧
     pickSpec ai "craftingBonus" (materialBaseline tier u).craftingBonus (transformMaterial ai tier u).craftingBonus ∧
     (transformMaterial ai tier u).durability = lookupStat ai "durability" ∧
     (transformMaterial ai tier u).weight = lookupStat ai "weight" ∧
     pickSpec ai "value" (materialBaseline tier u).value (transformMaterial ai tier u).value) ∧
    ((∀ k v, lookupStat ai k = some v →
        lookupStat (jsMerge (defaultBaseline u) ai) k = some v) ∧
     (∀ k, lookupStat ai k = none →
        lookupStat (jsMerge (defaultBaseline u) ai) k = lookupStat (defaultBaseline u) k)) := by
  refine ⟨⟨rfl, rfl, rfl, rfl, rfl, rfl, rfl⟩,
    ⟨pickReq_spec .., pick_spec .., pick_spec .., pick_spec .., pick_spec ..,
      pick_spec .., pick_spec .., pick_spec .., pick_spec ..⟩,
    ⟨pickReq_spec .., pick_spec .., pick_spec .., pick_spec .., pick_spec ..,
      pick_spec .., rfl, rfl, pick_spec .., pick_spec .., pick_spec ..⟩,
    ⟨pick_spec .., pick_spec .., pick_spec .., pick_spec .., pick_spec ..,
      pick_spec .., pick_spec .., pick_spec .., pick_spec .., pick_spec ..,
      pick_spec .., pick_spec ..⟩,
    ⟨pick_spec .., pick_spec .., pick_spec .., pick_spec .., rfl, rfl, pick_spec ..⟩,
    ⟨pick_spec .., pick_spec .., pick_spec .., rfl, rfl, pick_spec ..⟩,
    fun k v hv => ?_, fun k hn => ?_⟩
  · rw [lookupStat_jsMerge]
    cases hb : lookupStat (defaultBaseline u) k <;> simp [hb, hv]
  · rw [lookupStat_jsMerge]
    cases hb : lookupStat (defaultBaseline u) k <;> simp [hb, hn]

/-- C5 (counterexample): with the model supplying `damage = 0` for a Bronze
weapon (and a zero random stream, so the baseline damage is exactly 8), the
merged damage is the baseline 8, not the model-supplied 0 — the claim that
the model value is taken "including value 0" fails on the required `damage`
field. -/
theorem merge_zero_damage_cex :
    (transformWeapon [("damage", 0)] .bronze (fun _ => 0)).damage = 8 ∧
      (8 : ℚ) ≠ 0 := by
  constructor
  · norm_num [transformWeapon, pickReq, pick, lookupStat, weaponBaseline,
      getWeaponStatRanges, randomInRange, jsRound, round_eq]
  · norm_num

/-! ## C9: rounding semantics -/

/-- A value the pipeline rounded to the nearest integer. -/
def isInt (q : ℚ) : Prop := ∃ n : ℤ, q = (n : ℚ)

/-- A value kept at two decimal places. -/
def isTwoDecimal (q : ℚ) : Prop := ∃ n : ℤ, q = (n : ℚ) / 100

theorem isInt_jsRound (q : ℚ) : isInt (jsRound q) := ⟨round q, rfl⟩

theorem isTwoDecimal_randomInRange (u : ℚ) (r : StatRange) :
    isTwoDecimal (randomInRange u r) :=
  ⟨round ((u * (r.max - r.min) + r.min) * 100), rfl⟩

/-- C9 (amended): every stat value the BASELINE generator produces is rounded
to the nearest integer, except `range` and `weight` (and the default branch's
`weight`), which are kept at two decimal places; stat values supplied by the
model, however, are passed through into the structured block entirely
unrounded (see the counterexample for a non-integral model-supplied
`damage`). -/
theorem rounding_semantics_amended (tier : LootTier) (u : ℕ → ℚ)
    (ai : List (String × ℚ)) :
    (isInt (weaponBaseline tier u).damage ∧
     isInt (weaponBaseline tier u).attackSpeed ∧
     isInt (weaponBaseline tier u).criticalChance ∧
     isInt (weaponBaseline tier u).criticalDamage ∧
     isTwoDecimal (weaponBaseline tier u).range ∧
     isInt (weaponBaseline tier u).accuracy ∧
     isInt (weaponBaseline tier u).durability ∧
     isTwoDecimal (weaponBaseline tier u).weight ∧
     isInt (weaponBaseline tier u).value) ∧
    (isInt (armorBaseline tier u).defense ∧
     isInt (armorBaseline tier u).magicResistance ∧
     isInt (armorBaseline tier u).fireResistance ∧
     isInt (armorBaseline tier u).iceResistance ∧
     isInt (armorBaseline tier u).lightningResistance ∧
     isInt (armorBaseline tier u).poisonResistance ∧
     isInt (armorBaseline tier u).durability ∧
     isTwoDecimal (armorBaseline tier u).weight ∧
     isInt (armorBaseline tier u).value) ∧
    (isInt (accessoryBaseline tier u).health ∧
     isInt (accessoryBaseline tier u).mana ∧
     isInt (accessoryBaseline tier u).stamina ∧
     isInt (accessoryBaseline tier u).strength ∧
     isInt (accessoryBaseline tier u).dexterity ∧
     isInt (accessoryBaseline tier u).intelligence ∧
     isInt (accessoryBaseline tier u).wisdom ∧
     isInt (accessoryBaseline tier u).constitution ∧
     isInt (accessoryBaseline tier u).luck ∧
     isInt (accessoryBaseline tier u).durability ∧
     isTwoDecimal (accessoryBaseline tier u).weight ∧
     isInt (accessoryBaseline tier u).value) ∧
    (isInt (consumableBaseline tier u).healingPower ∧
     isInt (consumableBaseline tier u).manaPower ∧
     isInt (consumableBaseline tier u).duration ∧
     isInt (consumableBaseline tier u).stackSize ∧
     isInt (consumableBaseline tier u).value) ∧
    (isInt (materialBaseline tier u).purity ∧
     isInt (materialBaseline tier u).stackSize ∧
     isInt (materialBaseline tier u).craftingBonus ∧
     isInt (materialBaseline tier u).value) ∧
    (defaultBaseline u =
      [("durability", jsRound (randomInRange (u 0) ⟨50, 200⟩)),
       ("weight", randomInRange (u 1) ⟨0.5, 5.0⟩),
       ("value", jsRound (randomInRange (u 2) ⟨50, 500⟩))] ∧
     isInt (jsRound (randomInRange (u 0) ⟨50, 200⟩)) ∧
     isTwoDecimal (randomInRange (u 1) ⟨0.5, 5.0⟩) ∧
     isInt (jsRound (randomInRange (u 2) ⟨50, 500⟩))) ∧
    ((∀ v, lookupStat ai "attackSpeed" = some v →
        (transformWeapon ai tier u).attackSpeed = v) ∧
     (∀ v, lookupStat ai "weight" = some v →
        (transformWeapon ai tier u).weight = v) ∧
     (∀ v, lookupStat ai "damage" = some v → v ≠ 0 →
        (transformWeapon ai tier u).damage = v) ∧
     (∀ v, lookupStat ai "magicResistance" = some v →
        (transformArmor ai tier u).magicResistance = v) ∧
     (∀ v, lookupStat ai "health" = some v →
        (transformAccessory ai tier u).health = v) ∧
     (∀ v, lookupStat ai "healingPower" = some v →
        (transformConsumable ai tier u).healingPower = v) ∧
     (∀ v, lookupStat ai "purity" = some v →
        (transformMaterial ai tier u).purity = v)) := by
  refine ⟨⟨isInt_jsRound _, isInt_jsRound _, isInt_jsRound _, isInt_jsRound _,
      isTwoDecimal_randomInRange .., isInt_jsRound _, isInt_jsRound _,
      isTwoDecimal_randomInRange .., isInt_jsRound _⟩,
    ⟨isInt_jsRound _, isInt_jsRound _, isInt_jsRound _, isInt_jsRound _,
      isInt_jsRound _, isInt_jsRound _, isInt_jsRound _,
      isTwoDecimal_randomInRange .., isInt_jsRound _⟩,
    ⟨isInt_jsRound _, isInt_jsRound _, isInt_jsRound _, isInt_jsRound _,
      isInt_jsRound _, isInt_jsRound _, isInt_jsRound _, isInt_jsRound _,
      isInt_jsRound _, isInt_jsRound _, isTwoDecimal_randomInRange ..,
      isInt_jsRound _⟩,
    ⟨isInt_jsRound _, isInt_jsRound _, isInt_jsRound _, isInt_jsRound _,
      isInt_jsRound _⟩,
    ⟨isInt_jsRound _, isInt_jsRound _, isInt_jsRound _, isInt_jsRound _⟩,
    ⟨rfl, isInt_jsRound _, isTwoDecimal_randomInRange .., isInt_jsRound _⟩,
    (pick_spec ai "attackSpeed" _).1,
    (pick_spec ai "weight" _).1,
    (pickReq_spec ai "damage" _).1,
    (pick_spec ai "magicResistance" _).1,
    (pick_spec ai "health" _).1,
    (pick_spec ai "healingPower" _).1,
    (pick_spec ai "purity" _).1⟩

/-- The request of the C9 counterexample: a Bronze weapon with a fixed
subtype. -/
def optsRound : GenerationOptions :=
  { tier := .bronze, count := 1, itemType := some .weapon, subType := some "Sword",
    setName := none }

/-- The parsed model reply of the C9 counterexample: it supplies the
non-integral stat `damage = 30.5`. -/
def genRound : GeneratedItem :=
  { name := some "Halfling Edge", type := some "Weapon", subType := some "Sword",
    tier := some "Bronze", description := some "An oddly calibrated blade",
    stats := [("damage", 61 / 2)], magicalProperties := none, lore := none,
    setName := none, rarity := none }

/-- The zero randomness of the C9 counterexample (every baseline draw is the
range minimum, the rarity draw is 0). -/
def randZero : RandSource := { sub := 0, stat := fun _ => 0, rar := 0 }

/-- C9 (counterexample): the fully reconciled item keeps the model-supplied
`damage = 30.5` completely unrounded — `damage` is neither `range` nor
`weight`, yet the produced stat value is not an integer, refuting the claim
that every such stat value is rounded to the nearest integer. -/
theorem rounding_model_value_cex :
    (reconcile optsRound genRound randZero).map (fun it => it.stats) =
      some (.weapon
        { damage := 61 / 2, attackSpeed := -10, criticalChance := 2,
          criticalDamage := 150, range := 1, accuracy := -5, durability := 50,
          weight := 1, value := 50 }) ∧
    ¬ isInt ((61 : ℚ) / 2) := by
  constructor
  · simp [reconcile, optsRound, genRound, randZero, jsOrS, strTruthy,
      ItemType.str, parseItemType, transformToStructuredStats, transformWeapon,
      weaponBaseline, getWeaponStatRanges, pick, pickReq, lookupStat,
      randomInRange, jsRound, rollRarity, getRarityRange, lootItemValid,
      pickSetName, parseStats]
    norm_num [round_eq]
  · rintro ⟨n, hn⟩
    have h2 : (61 : ℚ) = (n : ℚ) * 2 := by
      rw [div_eq_iff (by norm_num : (2 : ℚ) ≠ 0)] at hn
      exact hn
    have h3 : (61 : ℤ) = n * 2 := by exact_mod_cast h2
    omega

/-! ## Concrete fixtures for witnesses and counterexamples -/

/-- An empty store (autoincrement starts at 1). -/
def dbEmpty : DBState := { rows := [], nextId := 1 }

/-- The Bronze weapon baseline at an all-zero random stream: every draw hits
the range minimum. -/
def bronzeMinWeapon : WeaponStats :=
  { damage := 8, attackSpeed := -10, criticalChance := 2, criticalDamage := 150,
    range := 1, accuracy := -5, durability := 50, weight := 1, value := 50 }

/-- The Gold weapon baseline at an all-zero random stream. -/
def goldMinWeapon : WeaponStats :=
  { damage := 18, attackSpeed := 0, criticalChance := 6, criticalDamage := 180,
    range := 1, accuracy := 0, durability := 120, weight := 3 / 5, value := 200 }

/-- A rarity draw of one half. -/
def randHalf : RandSource := { sub := 0, stat := fun _ => 0, rar := 1 / 2 }

/-- A complete Bronze-appropriate model reply naming `Stormbrand`. -/
def genStorm : GeneratedItem :=
  { name := some "Stormbrand", type := some "Weapon", subType := some "Sword",
    tier := some "Bronze", description := some "crackles", stats := [],
    magicalProperties := none, lore := none, setName := none, rarity := some 999 }

/-- A complete Bronze-appropriate model reply naming `Frostbite`. -/
def genFrost : GeneratedItem :=
  { name := some "Frostbite", type := some "Weapon", subType := some "Sword",
    tier := some "Bronze", description := some "chills", stats := [],
    magicalProperties := none, lore := none, setName := none, rarity := some 999 }

/-- A concrete Bronze single-sword request. -/
def optsBronzeSword : GenerationOptions :=
  { tier := .bronze, count := 1, itemType := some .weapon, subType := some "Sword",
    setName := none }

/-- Witness for C2: at a concrete Bronze request with a rarity draw of 1/2
the hypothesis holds and the band conclusion follows. -/
theorem rarity_band_invariant_witness :
    (∀ _i : ℕ, 0 ≤ (randHalf).rar ∧ (randHalf).rar < 1) ∧
    ((∀ item ∈ generateLoot optsBronzeSword
          (fun _ => some genStorm) (fun _ => randHalf),
        (getRarityRange optsBronzeSword.tier).min ≤ item.rarity ∧
          item.rarity ≤ (getRarityRange optsBronzeSword.tier).max) ∧
      (getRarityRange .bronze = ⟨5, 25⟩ ∧ getRarityRange .silver = ⟨20, 40⟩ ∧
        getRarityRange .gold = ⟨35, 60⟩ ∧ getRarityRange .platinum = ⟨55, 75⟩ ∧
        getRarityRange .legendary = ⟨70, 90⟩ ∧ getRarityRange .celestial = ⟨85, 100⟩) ∧
      (∀ (gen : GeneratedItem) (r : RandSource) (q : Option ℚ),
        reconcile optsBronzeSword { gen with rarity := q } r =
          reconcile optsBronzeSword gen r)) :=
  ⟨fun _ => by norm_num [randHalf],
   rarity_band_invariant optsBronzeSword (fun _ => some genStorm) (fun _ => randHalf)
     (fun _ => by norm_num [randHalf])⟩

/-- The §8.4 request: four attempts at a Bronze sword. -/
def optsScenario : GenerationOptions :=
  { tier := .bronze, count := 4, itemType := some .weapon, subType := some "Sword",
    setName := none }

/-- The §8.4 oracle: attempts 0 and 2 fail (service error / malformed text),
attempts 1 and 3 parse. -/
def oracleScenario : ℕ → Option GeneratedItem := fun i =>
  if i = 1 then some genStorm else if i = 3 then some genFrost else none

/-- The item attempt 1 of the scenario produces. -/
def itemStorm : LootItem :=
  { name := "Stormbrand", type := .weapon, subType := "Sword", tier := .bronze,
    description := "crackles", stats := .weapon bronzeMinWeapon,
    magicalProperties := none, lore := none, setName := none, rarity := 5 }

/-- The item attempt 3 of the scenario produces. -/
def itemFrost : LootItem :=
  { name := "Frostbite", type := .weapon, subType := "Sword", tier := .bronze,
    description := "chills", stats := .weapon bronzeMinWeapon,
    magicalProperties := none, lore := none, setName := none, rarity := 5 }

/-- Witness for C3: in the 4-attempt scenario with failures at attempts 0
and 2, the loop returns exactly the two successes, in attempt order, and
they validate. -/
theorem generation_partial_failure_witness :
    generateLoot optsScenario oracleScenario (fun _ => randZero) =
      [itemStorm, itemFrost] ∧
    lootItemValid itemStorm = true := by
  have heval : generateLoot optsScenario oracleScenario (fun _ => randZero) =
      [itemStorm, itemFrost] := by
    rw [generateLoot_eq_filterMap]
    show List.filterMap _ [0, 1, 2, 3] = _
    simp [attempt, oracleScenario, reconcile, optsScenario, genStorm, genFrost,
      randZero, jsOrS, strTruthy, ItemType.str, parseItemType,
      transformToStructuredStats, transformWeapon, weaponBaseline,
      getWeaponStatRanges, pick, pickReq, lookupStat, randomInRange, jsRound,
      rollRarity, getRarityRange, lootItemValid, pickSetName, parseStats,
      promptThrows, itemStorm, itemFrost, bronzeMinWeapon]
    norm_num [round_eq]
  refine ⟨heval, ?_⟩
  exact (generation_partial_failure optsScenario oracleScenario
    (fun _ => randZero)).2.2 itemStorm (by rw [heval]; simp)

/-- The C6 request: `itemType = Weapon` with the Armor subtype `Helmet`. -/
def optsMismatch : GenerationOptions :=
  { tier := .gold, count := 1, itemType := some .weapon, subType := some "Helmet",
    setName := none }

/-- A well-formed model reply for the C6 counterexample. -/
def genMismatch : GeneratedItem :=
  { name := some "Visored Blade", type := some "Weapon", subType := some "Helmet",
    tier := some "Gold", description := some "a sworded helmet", stats := [],
    magicalProperties := none, lore := none, setName := none, rarity := some 50 }

/-- The item the mismatched request produces. -/
def itemMismatch : LootItem :=
  { name := "Visored Blade", type := .weapon, subType := "Helmet", tier := .gold,
    description := "a sworded helmet", stats := .weapon goldMinWeapon,
    magicalProperties := none, lore := none, setName := none, rarity := 35 }

/-- C6 (counterexample): the Weapon/Helmet request is not rejected — the
generation attempt runs against the service reply and returns one validated
item carrying the mismatched pair, contradicting "fails validation
immediately, before any text-generation service call is made". -/
theorem request_validation_cex :
    generateLoot optsMismatch (fun _ => some genMismatch) (fun _ => randZero) =
      [itemMismatch] ∧
    itemMismatch.type = ItemType.weapon ∧ itemMismatch.subType = "Helmet" ∧
    lootItemValid itemMismatch = true := by
  refine ⟨?_, rfl, rfl, rfl⟩
  rw [generateLoot_eq_filterMap]
  show List.filterMap _ [0] = _
  simp [attempt, reconcile, optsMismatch, genMismatch, randZero, jsOrS, strTruthy,
    ItemType.str, parseItemType, transformToStructuredStats, transformWeapon,
    weaponBaseline, getWeaponStatRanges, pick, pickReq, lookupStat, randomInRange,
    jsRound, rollRarity, getRarityRange, lootItemValid, pickSetName, parseStats,
    promptThrows, itemMismatch, goldMinWeapon]
  norm_num [round_eq]

/-- Witness for C6 (amended): a `count = 0` request returns the empty list. -/
theorem request_validation_amended_witness :
    generateLoot
      { tier := .gold, count := 0, itemType := some .weapon,
        subType := some "Helmet", setName := none }
      (fun _ => some genMismatch) (fun _ => randZero) = [] :=
  request_validation_amended.1 _ _ _ rfl

/-- Witness for C4 (amended): the Bronze-to-Silver pair is one of the
adjacent tier pairs and satisfies the amended monotonicity pattern. -/
theorem stat_scaling_amended_witness :
    ((LootTier.bronze, LootTier.silver) ∈ adjacentTierPairs) ∧
    (rangeLE (getWeaponStatRanges LootTier.bronze).damage
        (getWeaponStatRanges LootTier.silver).damage ∧
      weightPattern (getWeaponStatRanges LootTier.bronze).weight
        (getWeaponStatRanges LootTier.silver).weight) :=
  by
  have h := stat_scaling_amended (LootTier.bronze, LootTier.silver)
    (by simp [adjacentTierPairs])
  exact ⟨by simp [adjacentTierPairs], h.1.1, h.1.2.2.2.2.2.2.2.2⟩

/-- Witness for C5 (amended): a model-supplied `attackSpeed` of `0` IS taken
on the optional field (the zero fallback only afflicts `damage`/`defense`). -/
theorem merge_per_field_amended_witness :
    lookupStat [("attackSpeed", 0)] "attackSpeed" = some 0 ∧
    (transformWeapon [("attackSpeed", 0)] .bronze (fun _ => 0)).attackSpeed = 0 :=
  ⟨rfl, (merge_per_field_amended [("attackSpeed", 0)] .bronze (fun _ => 0)).2.1.2.1.1 0 rfl⟩

/-- Witness for C9 (amended): concrete Bronze baseline damage is an integer
and the weapon weight keeps two decimals. -/
theorem rounding_semantics_amended_witness :
    isInt (weaponBaseline .bronze (fun _ => 0)).damage ∧
    isTwoDecimal (weaponBaseline .bronze (fun _ => 0)).weight :=
  ⟨(rounding_semantics_amended .bronze (fun _ => 0) []).1.1,
   (rounding_semantics_amended .bronze (fun _ => 0) []).1.2.2.2.2.2.2.2.1⟩

/-- A model reply that already carries its own set name (`ModelSet`). -/
def genModelSet : GeneratedItem :=
  { name := some "Set Blade", type := some "Weapon", subType := some "Sword",
    tier := some "Bronze", description := some "of a set", stats := [],
    magicalProperties := none, lore := none, setName := some "ModelSet",
    rarity := none }

/-- The item the empty-set-name request produces: the model's set name
survives. -/
def itemModelSet : LootItem :=
  { name := "Set Blade", type := .weapon, subType := "Sword", tier := .bronze,
    description := "of a set", stats := .weapon bronzeMinWeapon,
    magicalProperties := none, lore := none, setName := some "ModelSet",
    rarity := 5 }

/-- C7 (counterexample): with the EMPTY set name, the `options.setName`
truthiness guard skips the override and the returned item keeps the model's
`ModelSet` instead of the requested set name, refuting "each returned item
carrying the requested setName" for every set name. -/
theorem set_coordination_cex :
    generateLootSet "" .bronze [.weapon] (fun _ _ => some genModelSet)
        (fun _ _ => randZero) = [itemModelSet] ∧
    itemModelSet.setName = some "ModelSet" ∧
    (some "ModelSet" : Option String) ≠ some "" := by
  refine ⟨?_, rfl, by simp⟩
  rw [generateLootSet_eq]
  show (List.map _ [(0, ItemType.weapon)]).flatten = _
  simp only [List.map_cons, List.map_nil, List.flatten_cons, List.flatten_nil,
    List.append_nil, generateLoot_eq_filterMap]
  show List.filterMap _ [0] = _
  simp [attempt, reconcile, genModelSet, randZero, jsOrS, strTruthy, ItemType.str,
    parseItemType, transformToStructuredStats, transformWeapon, weaponBaseline,
    getWeaponStatRanges, pick, pickReq, lookupStat, randomInRange, jsRound,
    rollRarity, getRarityRange, lootItemValid, pickSetName, parseStats,
    promptThrows, itemModelSet, bronzeMinWeapon]
  norm_num [round_eq]

/-- Witness for C7 (amended): applying the set-coordination contract at a
concrete non-empty set name. -/
theorem set_coordination_amended_witness :
    (("Dragon" : String) ≠ "") ∧
    (generateLootSet "Dragon" .bronze [.weapon, .armor]
        (fun _ _ => some genStorm) (fun _ _ => randZero) =
      (([ItemType.weapon, ItemType.armor].enum.map (fun p =>
        generateLoot
          { tier := .bronze, count := 1, itemType := some p.2, subType := none,
            setName := some "Dragon" }
          (fun _ => some genStorm) (fun _ => randZero))).flatten) ∧
      ∀ item ∈ generateLootSet "Dragon" .bronze [.weapon, .armor]
          (fun _ _ => some genStorm) (fun _ _ => randZero),
        item.setName = some "Dragon" ∧ item.tier = .bronze ∧
          lootItemValid item = true) :=
  ⟨by decide,
   set_coordination_amended "Dragon" (by decide) .bronze [.weapon, .armor]
     (fun _ _ => some genStorm) (fun _ _ => randZero)⟩

/-- The C8 request: Gold weapon, subtype `Sword`, set `Dawn`. -/
def optsAuthority : GenerationOptions :=
  { tier := .gold, count := 1, itemType := some .weapon, subType := some "Sword",
    setName := some "Dawn" }

/-- The C8 model reply: it claims to be a Celestial Armor Helmet of set
`Dusk` with rarity 999 — all of which the request overrides — and supplies
`damage = 30`. -/
def genAuthority : GeneratedItem :=
  { name := some "Dawnlight", type := some "Armor", subType := some "Helmet",
    tier := some "Celestial", description := some "radiant",
    stats := [("damage", 30)], magicalProperties := none, lore := none,
    setName := some "Dusk", rarity := some 999 }

/-- The item the C8 request produces. -/
def itemAuthority : LootItem :=
  { name := "Dawnlight", type := .weapon, subType := "Sword", tier := .gold,
    description := "radiant",
    stats := .weapon { goldMinWeapon with damage := 30 },
    magicalProperties := none, lore := none, setName := some "Dawn",
    rarity := 35 }

/-- Witness for C8: the concrete reconciled item keeps the request's type,
tier, subtype and set name, with the model-supplied damage preserved over
the Gold baseline. -/
theorem request_authority_witness :
    (reconcile optsAuthority genAuthority randZero = some itemAuthority) ∧
    (itemAuthority.type = ItemType.weapon ∧
      itemAuthority.tier = optsAuthority.tier ∧
      itemAuthority.stats = parseStats (transformToStructuredStats
        genAuthority.stats (some ItemType.weapon) optsAuthority.tier randZero.stat) ∧
      (∀ s, optsAuthority.subType = some s → s ≠ "" → itemAuthority.subType = s) ∧
      (∀ nm, optsAuthority.setName = some nm → nm ≠ "" →
        itemAuthority.setName = some nm) ∧
      ∀ x y, reconcile optsAuthority { genAuthority with type := x, tier := y }
          randZero = reconcile optsAuthority genAuthority randZero) := by
  have heval : reconcile optsAuthority genAuthority randZero = some itemAuthority := by
    simp [reconcile, optsAuthority, genAuthority, randZero, jsOrS, strTruthy,
      ItemType.str, parseItemType, transformToStructuredStats, transformWeapon,
      weaponBaseline, getWeaponStatRanges, pick, pickReq, lookupStat,
      randomInRange, jsRound, rollRarity, getRarityRange, lootItemValid,
      pickSetName, parseStats, itemAuthority, goldMinWeapon]
    norm_num [round_eq]
  exact ⟨heval, request_authority rfl heval⟩

/-- A single magical property named `Aura`. -/
def propAura : MagicalProperty := { name := "Aura", description := "glows", magnitude := none }

/-- An artifact with one magical property and rarity 10. -/
def itemGlow : LootItem :=
  { name := "Glowstone", type := .artifact, subType := "Ancient Relic",
    tier := .gold, description := "hums", stats := .flat [],
    magicalProperties := some [propAura], lore := some "old", setName := none,
    rarity := 10 }

/-- The same logical item rolled at rarity 20. -/
def itemGlowAlt : LootItem := { itemGlow with rarity := 20 }

/-- Witness for C1 (amended): two concrete items differing only in rarity
hash identically, and saving the second after the first returns the first
save's row, stores nothing new, and leaves exactly one matching row. -/
theorem identity_idempotent_witness :
    itemGlow.rarity ≠ itemGlowAlt.rarity ∧
    (generateHash itemGlow = generateHash itemGlowAlt ∧
      (∀ (db : DBState) (now₁ now₂ : String),
        saveItem ((saveItem db itemGlow now₁).2.1) itemGlowAlt now₂ =
          ((saveItem db itemGlow now₁).1, (saveItem db itemGlow now₁).2.1,
            mutateForHash itemGlowAlt)) ∧
      (∀ (db : DBState) (now₁ : String),
        hashCount db (generateHash itemGlow) = 0 →
        hashCount ((saveItem db itemGlow now₁).2.1) (generateHash itemGlow) = 1)) :=
  ⟨by decide,
   identity_idempotent rfl rfl rfl rfl rfl rfl rfl rfl (List.Perm.refl _)
     (by simp [propAura]) rfl rfl⟩

/-- Two properties sharing the name `Aura` but with different descriptions. -/
def propAuraFirst : MagicalProperty :=
  { name := "Aura", description := "first", magnitude := none }

/-- The other same-named property. -/
def propAuraSecond : MagicalProperty :=
  { name := "Aura", description := "second", magnitude := none }

/-- An artifact holding the two same-named properties in one order. -/
def itemTwins : LootItem :=
  { name := "Twinstone", type := .artifact, subType := "Ancient Relic",
    tier := .gold, description := "hums", stats := .flat [],
    magicalProperties := some [propAuraFirst, propAuraSecond], lore := none,
    setName := none, rarity := 10 }

/-- The identical item with the two same-named properties swapped. -/
def itemTwinsSwapped : LootItem :=
  { itemTwins with magicalProperties := some [propAuraSecond, propAuraFirst] }

/-- C1 (counterexample): the two items agree on every hashed field up to a
reordering of `magicalProperties`, yet hash differently — the stable
name-keyed sort leaves same-named entries in their original relative order,
so the hash is NOT invariant under reordering when property names repeat. -/
theorem identity_idempotent_cex :
    ([propAuraFirst, propAuraSecond].Perm [propAuraSecond, propAuraFirst]) ∧
    generateHash itemTwins ≠ generateHash itemTwinsSwapped := by
  constructor
  · exact List.Perm.swap _ _ _
  · simp [generateHash, itemTwins, itemTwinsSwapped, sortProps,
      List.insertionSort, List.orderedInsert, propNameLE, propAuraFirst,
      propAuraSecond]

/-- A magical property named `Bolt`, name-sorted after `Aura`. -/
def propBolt : MagicalProperty := { name := "Bolt", description := "zaps", magnitude := none }

/-- An artifact whose properties arrive in non-sorted order. -/
def itemUnsorted : LootItem :=
  { name := "Tempest", type := .artifact, subType := "Mystic Artifact",
    tier := .gold, description := "storms", stats := .flat [],
    magicalProperties := some [propBolt, propAura], lore := none,
    setName := none, rarity := 12 }

/-- Witness for C10: after `saveItem`, the caller's item holds
`[Aura, Bolt]` — its properties name-sorted in place — with all other
fields untouched. -/
theorem saveItem_mutates_input_witness :
    itemUnsorted.magicalProperties = some [propBolt, propAura] ∧
    [propBolt, propAura] ≠ [] ∧
    ((saveItem dbEmpty itemUnsorted "t0").2.2 =
        { itemUnsorted with
            magicalProperties := some (sortProps [propBolt, propAura]) } ∧
      (sortProps [propBolt, propAura]).Perm [propBolt, propAura] ∧
      (sortProps [propBolt, propAura]).Sorted propNameLE) ∧
    sortProps [propBolt, propAura] = [propAura, propBolt] := by
  have hlt : ("Aura" : String) < "Bolt" :=
    String.lt_iff_toList_lt.mpr (by decide)
  have hle : ¬ propNameLE propBolt propAura := by
    simp only [propNameLE, propBolt, propAura]
    exact not_le.mpr hlt
  have hsort : sortProps [propBolt, propAura] = [propAura, propBolt] := by
    simp [sortProps, List.insertionSort, List.orderedInsert, hle]
  exact ⟨rfl, by simp,
    saveItem_mutates_input dbEmpty itemUnsorted "t0" _ rfl (by simp), hsort⟩

end AiLoot
